import Mathlib

/-!
# Verification of the announcements CRUD service

A shallow embedding of `src/backend/routers/announcements.py`.

Modelling conventions:
* A MongoDB `ObjectId` is a natural number; the string form accepted by
  `ObjectId(s)` is 24 hexadecimal characters (case-insensitive), rendered
  back by `str(...)` in lowercase (`parseObjectId` / `objIdToString`).
* The announcements collection is an association list `List (Nat × Announcement)`;
  `find_one`, `update_one` and `delete_one` act on the first entry with the
  given key, matching MongoDB single-document operations.
* `datetime.fromisoformat` is modelled by `parseIso` on the grammar
  `YYYY-MM-DD[*HH[:MM[:SS[.fff|.ffffff]]]][(+|-)HH:MM]` (the pre-3.11 CPython
  grammar, any single separator character), with full calendar validation.
  Parsed values are UTC timestamps in microseconds; offset-naive values are
  identified with UTC, under which `datetime` comparison is numeric
  comparison of timestamps.  The source always parses
  `s.replace('Z', '+00:00')`, modelled by `pyParseDate`.
* `datetime.utcnow()` is an opaque parameter: a `String` where the code
  formats it (`created_at`), an `Int` BSON date where the code sends it to
  MongoDB (the `active_only` query).
* MongoDB comparison query operators are type-bracketed: `$lte`/`$gte`
  compare only values of the same BSON type (`bsonLte` on `BVal`); a stored
  string never matches a `$gte`/`$lte` whose operand is a BSON date.
* Each endpoint returns its HTTP outcome (`Except ApiError …`) together with
  the announcements collection after the call; `HTTPException` status codes
  are mapped to the spec's taxonomy (`401 ↦ Unauthorized`,
  `400 "Invalid announcement ID format" ↦ InvalidIdentifier`,
  `400` date-format messages `↦ InvalidDate`,
  `400 "Start date must be before expiration date" ↦ InvalidDateOrder`,
  `404 ↦ NotFound`).
-/

/-- The error taxonomy of the service (section 7 of the design), plus
`Internal` for an exception no handler catches — CPython raises
`TypeError` when order-comparing an offset-naive against an offset-aware
`datetime`, which the surrounding `except ValueError` does not intercept,
so the request fails with a 500 rather than one of the taxonomy's 400s. -/
inductive ApiError where
  | Unauthorized
  | InvalidIdentifier
  | NotFound
  | InvalidDate
  | InvalidDateOrder
  | Internal
deriving DecidableEq, Repr

/-- A persisted announcement document.  `start_date` and `expiration_date`
are optional because the store is schema-flexible; `extra` holds any
further fields, which the router never touches. -/
structure Announcement where
  message : String
  expiration_date : Option String
  start_date : Option String
  created_by : String
  created_at : String
  extra : List (String × String)
deriving DecidableEq, Repr

/-- The externally exposed shape: `_id` removed, `id` added as the string
rendering of the native identifier (`serialize_announcement`). -/
structure ShapedAnnouncement where
  id : String
  message : String
  expiration_date : Option String
  start_date : Option String
  created_by : String
  created_at : String
  extra : List (String × String)
deriving DecidableEq, Repr

/-- The announcements collection: keyed documents in natural (insertion) order. -/
abbrev AnnDB := List (Nat × Announcement)

/-- Python truthiness of an optional string (`if start_date:`,
`if final_start and final_exp:`): `None` and `""` are falsy. -/
def truthy : Option String → Bool
  | none => false
  | some s => !(s == "")

/-! ## ObjectId strings -/

/-- Value of one hexadecimal character, as accepted by `ObjectId(s)`. -/
def hexVal (c : Char) : Option Nat :=
  if '0' ≤ c ∧ c ≤ '9' then some (c.toNat - '0'.toNat)
  else if 'a' ≤ c ∧ c ≤ 'f' then some (c.toNat - 'a'.toNat + 10)
  else if 'A' ≤ c ∧ c ≤ 'F' then some (c.toNat - 'A'.toNat + 10)
  else none

/-- Big-endian hexadecimal accumulator parse; fails on a non-hex character. -/
def parseHexAux (acc : Nat) : List Char → Option Nat
  | [] => some acc
  | c :: cs =>
    match hexVal c with
    | some d => parseHexAux (acc * 16 + d) cs
    | none => none

/-- `ObjectId(announcement_id)`: succeeds exactly on 24 hexadecimal
characters, giving the numeric identifier. -/
def parseObjectId (s : String) : Option Nat :=
  if s.data.length = 24 then parseHexAux 0 s.data else none

/-- Lowercase hexadecimal digit for `n < 16`. -/
def natToHexDigit (n : Nat) : Char :=
  if n < 10 then Char.ofNat ('0'.toNat + n) else Char.ofNat ('a'.toNat + n - 10)

/-- `len` lowercase hexadecimal digits of `n`, most significant first,
prepended to `acc`. -/
def toHexPaddedAux : Nat → Nat → List Char → List Char
  | 0, _, acc => acc
  | len + 1, n, acc => toHexPaddedAux len (n / 16) (natToHexDigit (n % 16) :: acc)

/-- `str(ObjectId)`: the 24-character lowercase hexadecimal rendering. -/
def objIdToString (n : Nat) : String :=
  ⟨toHexPaddedAux 24 n []⟩

/-! ## Dates: `datetime.fromisoformat` on `s.replace('Z', '+00:00')` -/

/-- `s.replace('Z', '+00:00')` on the character list. -/
def zreplaceChars : List Char → List Char
  | [] => []
  | c :: cs =>
    if c = 'Z' then '+' :: '0' :: '0' :: ':' :: '0' :: '0' :: zreplaceChars cs
    else c :: zreplaceChars cs

/-- `s.replace('Z', '+00:00')`. -/
def zreplace (s : String) : String := ⟨zreplaceChars s.data⟩

/-- Value of one decimal digit. -/
def digitVal (c : Char) : Option Nat :=
  if '0' ≤ c ∧ c ≤ '9' then some (c.toNat - '0'.toNat) else none

/-- Two decimal digits. -/
def num2 (a b : Char) : Option Nat := do
  let x ← digitVal a
  let y ← digitVal b
  pure (10 * x + y)

/-- Four decimal digits. -/
def num4 (a b c d : Char) : Option Nat := do
  let x ← num2 a b
  let y ← num2 c d
  pure (100 * x + y)

/-- Gregorian leap year, as in Python's `calendar`/`datetime`. -/
def isLeapYear (y : Nat) : Bool :=
  (y % 4 == 0 && y % 100 != 0) || y % 400 == 0

/-- Length of month `m` of year `y` (`m` between 1 and 12). -/
def daysInMonth (y m : Nat) : Nat :=
  if m = 2 then (if isLeapYear y then 29 else 28)
  else if m = 4 ∨ m = 6 ∨ m = 9 ∨ m = 11 then 30
  else 31

/-- Total days of months `1..m` of year `y`. -/
def monthsSum (y : Nat) : Nat → Nat
  | 0 => 0
  | m + 1 => monthsSum y m + daysInMonth y (m + 1)

/-- Days from 0001-01-01 to the given proleptic Gregorian date (`y ≥ 1`). -/
def daysFromCivil (y m d : Nat) : Nat :=
  365 * (y - 1) + ((y - 1) / 4 - (y - 1) / 100 + (y - 1) / 400) +
    monthsSum y (m - 1) + (d - 1)

/-- A parsed `datetime.fromisoformat` result: its UTC-adjusted timestamp
in microseconds together with its offset-awareness.  CPython compares two
offset-aware or two offset-naive datetimes by exactly this timestamp
(offset-naive values are encoded at offset zero, which is order-correct
within the naive class), and raises `TypeError` on a naive-vs-aware order
comparison — see `pyGe`. -/
structure PyDateTime where
  ts : Int
  aware : Bool
deriving DecidableEq, Repr

/-- UTC-adjusted timestamp in microseconds of a parsed datetime; an
explicit offset (`sign`, `offH:offM:offS.offF`) shifts the naive value to
UTC. -/
def dateTimeValue (y mo da h mi s frac : Nat) (plusSign : Bool)
    (offH offM offS offF : Nat) : Int :=
  let naive : Int :=
    ((daysFromCivil y mo da * 86400 + h * 3600 + mi * 60 + s : Nat) : Int) * 1000000 + frac
  let off : Int := ((offH * 3600 + offM * 60 + offS : Nat) : Int) * 1000000 + offF
  if plusSign then naive - off else naive + off

/-- Maximal leading run of decimal digits. -/
def takeDigits : List Char → List Nat × List Char
  | [] => ([], [])
  | c :: cs =>
    match digitVal c with
    | some d =>
      let (ds, rest) := takeDigits cs
      (d :: ds, rest)
    | none => ([], c :: cs)

/-- Decimal value of a digit list, most significant first. -/
def digitsToNat (ds : List Nat) : Nat := ds.foldl (fun acc d => acc * 10 + d) 0

/-- The offset body after its sign: `HH:MM`, `HH:MM:SS` or
`HH:MM:SS.ffffff` — the three shapes `fromisoformat` accepts for a UTC
offset.  Components are not range-checked individually (`timedelta`
normalizes them); only the total is bounded, by `timezone`. -/
def parseOffsetHMS : List Char → Option (Nat × Nat × Nat × Nat)
  | o1 :: o2 :: ':' :: o3 :: o4 :: rest => do
    let oh ← num2 o1 o2
    let om ← num2 o3 o4
    match rest with
    | [] => pure (oh, om, 0, 0)
    | ':' :: o5 :: o6 :: rest2 => do
      let os ← num2 o5 o6
      match rest2 with
      | [] => pure (oh, om, os, 0)
      | '.' :: f1 :: f2 :: f3 :: f4 :: f5 :: f6 :: [] => do
        let x1 ← digitVal f1
        let x2 ← digitVal f2
        let x3 ← digitVal f3
        let x4 ← digitVal f4
        let x5 ← digitVal f5
        let x6 ← digitVal f6
        pure (oh, om, os, ((((x1 * 10 + x2) * 10 + x3) * 10 + x4) * 10 + x5) * 10 + x6)
      | _ => none
    | _ => none
  | _ => none

/-- Rest of the string after the time part: either nothing (offset-naive)
or a UTC offset `(+|-)HH:MM[:SS[.ffffff]]` whose total magnitude
`timezone` requires to be strictly below 24 hours. -/
def finishOffset (y mo da h mi s frac : Nat) : List Char → Option PyDateTime
  | [] => some ⟨dateTimeValue y mo da h mi s frac true 0 0 0 0, false⟩
  | sign :: rest =>
    if sign = '+' ∨ sign = '-' then
      match parseOffsetHMS rest with
      | some (oh, om, os, ofr) =>
        if (oh * 3600 + om * 60 + os) * 1000000 + ofr < 86400000000 then
          some ⟨dateTimeValue y mo da h mi s frac (sign == '+') oh om os ofr, true⟩
        else none
      | none => none
    else none

/-- Time-of-day part `HH[:MM[:SS[.fff|.ffffff]]]` followed by an optional
offset, after a validated calendar date. -/
def parseTimeAndOffset (y mo da : Nat) : List Char → Option PyDateTime
  | h1 :: h2 :: rest => do
    let h ← num2 h1 h2
    if h ≤ 23 then
      match rest with
      | ':' :: m1 :: m2 :: rest2 => do
        let mi ← num2 m1 m2
        if mi ≤ 59 then
          match rest2 with
          | ':' :: s1 :: s2 :: rest3 => do
            let s ← num2 s1 s2
            if s ≤ 59 then
              match rest3 with
              | '.' :: rest4 =>
                let (ds, rest5) := takeDigits rest4
                if ds.length = 3 then
                  finishOffset y mo da h mi s (digitsToNat ds * 1000) rest5
                else if ds.length = 6 then
                  finishOffset y mo da h mi s (digitsToNat ds) rest5
                else none
              | _ => finishOffset y mo da h mi s 0 rest3
            else none
          | _ => finishOffset y mo da h mi 0 0 rest2
        else none
      | _ => finishOffset y mo da h 0 0 0 rest
    else none
  | _ => none

/-- `datetime.fromisoformat`: `YYYY-MM-DD`, optionally followed by one
separator character and a time (plus optional offset). -/
def parseIso : List Char → Option PyDateTime
  | y1 :: y2 :: y3 :: y4 :: '-' :: m1 :: m2 :: '-' :: d1 :: d2 :: rest => do
    let y ← num4 y1 y2 y3 y4
    let mo ← num2 m1 m2
    let da ← num2 d1 d2
    if 1 ≤ y ∧ 1 ≤ mo ∧ mo ≤ 12 ∧ 1 ≤ da ∧ da ≤ daysInMonth y mo then
      match rest with
      | [] => some ⟨dateTimeValue y mo da 0 0 0 0 true 0 0 0 0, false⟩
      | _ :: trest => parseTimeAndOffset y mo da trest
    else none
  | _ => none

/-- `datetime.fromisoformat(s.replace('Z', '+00:00'))`, as performed at
every date-parsing site of the router. -/
def pyParseDateTime (s : String) : Option PyDateTime := parseIso (zreplace s).data

/-- The UTC-adjusted timestamp of a parsed date string — the projection
used where only the instant matters; the handlers' order comparisons go
through `pyGe`, which also consults the awareness flag. -/
def pyParseDate (s : String) : Option Int := (pyParseDateTime s).map PyDateTime.ts

/-- CPython `a >= b` on two datetimes: within one awareness class the
comparison is by UTC-adjusted timestamp; ordering an offset-naive against
an offset-aware datetime raises `TypeError` (`none`), which no handler of
this router catches. -/
def pyGe (a b : PyDateTime) : Option Bool :=
  if a.aware = b.aware then some (decide (b.ts ≤ a.ts)) else none

/-! ## BSON values and type-bracketed comparison -/

/-- The two BSON value types this router's queries can meet on a date
field: stored strings and the `datetime.utcnow()` query operand. -/
inductive BVal where
  | str : String → BVal
  | date : Int → BVal

/-- Byte-lexicographic string order used by MongoDB for string comparison
and by the `created_at` sort. -/
def charsLe : List Char → List Char → Bool
  | [], _ => true
  | _ :: _, [] => false
  | a :: as, b :: bs =>
    if a.toNat < b.toNat then true
    else if b.toNat < a.toNat then false
    else charsLe as bs

/-- Lexicographic `≤` on strings. -/
def strLe (a b : String) : Bool := charsLe a.data b.data

/-- MongoDB `$lte`: comparison query operators are type-bracketed and never
match across distinct BSON types. -/
def bsonLte : BVal → BVal → Bool
  | .str a, .str b => strLe a b
  | .date a, .date b => decide (a ≤ b)
  | _, _ => false

/-- MongoDB `$gte`. -/
def bsonGte (a b : BVal) : Bool := bsonLte b a

/-- The `active_only` filter of `get_announcements`:
`{"$and": [{"$or": [{"start_date": {"$exists": false}}, {"start_date": {"$lte": now}}]},
{"expiration_date": {"$gte": now}}]}` evaluated on one document, where
`now = datetime.utcnow()` is a BSON date and stored dates are strings. -/
def activeQueryMatches (now : Int) (d : Announcement) : Bool :=
  (d.start_date.isNone ||
    (match d.start_date with
     | some s => bsonLte (.str s) (.date now)
     | none => false)) &&
  (match d.expiration_date with
   | some e => bsonGte (.str e) (.date now)
   | none => false)

/-! ## Collection operations -/

/-- `find_one({"_id": oid})`: first document with the given key. -/
def dbFind : AnnDB → Nat → Option Announcement
  | [], _ => none
  | (k, d) :: rest, oid => if k = oid then some d else dbFind rest oid

/-- `update_one({"_id": oid}, …)`: rewrite the first document with the
given key. -/
def dbUpdateFirst : AnnDB → Nat → (Announcement → Announcement) → AnnDB
  | [], _, _ => []
  | (k, d) :: rest, oid, f =>
    if k = oid then (k, f d) :: rest else (k, d) :: dbUpdateFirst rest oid f

/-- `delete_one({"_id": oid})`: remove the first document with the given
key, returning the new collection and `deleted_count`. -/
def dbDeleteFirst : AnnDB → Nat → AnnDB × Nat
  | [], _ => ([], 0)
  | (k, d) :: rest, oid =>
    if k = oid then (rest, 1)
    else
      let (r, c) := dbDeleteFirst rest oid
      ((k, d) :: r, c)

/-- The identifier the storage engine assigns on `insert_one`: strictly
larger than every key in use, hence fresh. -/
def freshId (db : AnnDB) : Nat := db.foldr (fun p acc => max p.1 acc) 0 + 1

/-! ## The serialization helper and the five endpoint handlers -/

/-- `serialize_announcement`: delete `_id`, add `id = str(_id)`. -/
def serialize_announcement (oid : Nat) (a : Announcement) : ShapedAnnouncement :=
  { id := objIdToString oid
    message := a.message
    expiration_date := a.expiration_date
    start_date := a.start_date
    created_by := a.created_by
    created_at := a.created_at
    extra := a.extra }

/-- Descending insertion into a list already sorted by `created_at`
descending. -/
def insertByCreatedAt (p : Nat × Announcement) : AnnDB → AnnDB
  | [] => [p]
  | q :: qs =>
    if strLe q.2.created_at p.2.created_at then p :: q :: qs
    else q :: insertByCreatedAt p qs

/-- `.sort("created_at", -1)`: most recent `created_at` first. -/
def sortByCreatedAtDesc : AnnDB → AnnDB
  | [] => []
  | p :: ps => insertByCreatedAt p (sortByCreatedAtDesc ps)

/-- `GET /announcements`: optional `active_only` filter, then the
descending `created_at` sort, then serialization. -/
def get_announcements (active_only : Bool) (now : Int) (db : AnnDB) : List ShapedAnnouncement :=
  let filtered := if active_only then db.filter (fun p => activeQueryMatches now p.2) else db
  (sortByCreatedAtDesc filtered).map (fun p => serialize_announcement p.1 p.2)

/-- `GET /announcements/{id}`. -/
def get_announcement (announcement_id : String) (db : AnnDB) :
    Except ApiError ShapedAnnouncement :=
  match parseObjectId announcement_id with
  | none => .error .InvalidIdentifier
  | some oid =>
    match dbFind db oid with
    | none => .error .NotFound
    | some d => .ok (serialize_announcement oid d)

/-- The insert-and-return tail of `create_announcement` (lines 103-118):
build the document (`start_date` only if truthy), `insert_one`, expose the
assigned identifier. -/
def createInsert (db : AnnDB) (message expiration_date : String) (start_date : Option String)
    (teacher_username now : String) : Except ApiError ShapedAnnouncement × AnnDB :=
  let doc : Announcement :=
    { message := message
      expiration_date := some expiration_date
      start_date := start_date
      created_by := teacher_username
      created_at := now
      extra := [] }
  let fid := freshId db
  (.ok (serialize_announcement fid doc), db ++ [(fid, doc)])

/-- `POST /announcements`: teacher check, date validation (note that a
falsy `start_date` — `None` or `""` — skips validation and storage), then
insert.  `now` is `datetime.utcnow().isoformat()`. -/
def create_announcement (T : List String) (db : AnnDB) (message expiration_date : String)
    (start_date : Option String) (teacher_username : String) (now : String) :
    Except ApiError ShapedAnnouncement × AnnDB :=
  if teacher_username ∈ T then
    match pyParseDateTime expiration_date with
    | none => (.error .InvalidDate, db)
    | some ex =>
      match start_date with
      | some sstr =>
        if sstr = "" then createInsert db message expiration_date none teacher_username now
        else
          match pyParseDateTime sstr with
          | none => (.error .InvalidDate, db)
          | some st =>
            match pyGe st ex with
            | none => (.error .Internal, db)
            | some true => (.error .InvalidDateOrder, db)
            | some false =>
              createInsert db message expiration_date (some sstr) teacher_username now
      | none => createInsert db message expiration_date none teacher_username now
  else (.error .Unauthorized, db)

/-- The pending `update_fields` dictionary of `update_announcement`. -/
structure UpdateFields where
  message : Option String := none
  expiration_date : Option String := none
  start_date : Option String := none
deriving DecidableEq, Repr

/-- Python truthiness of `update_fields` (`if update_fields:`). -/
def ufNonEmpty (uf : UpdateFields) : Bool :=
  uf.message.isSome || uf.expiration_date.isSome || uf.start_date.isSome

/-- `{"$set": update_fields}` on one document. -/
def applyUpdateFields (uf : UpdateFields) (d : Announcement) : Announcement :=
  { d with
    message := match uf.message with | some m => m | none => d.message
    expiration_date :=
      match uf.expiration_date with | some e => some e | none => d.expiration_date
    start_date := match uf.start_date with | some s => some s | none => d.start_date }

/-- `{"$unset": {"start_date": ""}}` on one document. -/
def unsetStart (d : Announcement) : Announcement := { d with start_date := none }

/-- `final_start` of line 180: `update_fields.get("start_date",
existing.get("start_date"))` — the pending update value if any, else the
value of the snapshot `existing` fetched before any mutation. -/
def ufFinalStart (uf : UpdateFields) (existing : Announcement) : Option String :=
  match uf.start_date with
  | some s => some s
  | none => existing.start_date

/-- `final_exp` of line 181. -/
def ufFinalExp (uf : UpdateFields) (existing : Announcement) : Option String :=
  match uf.expiration_date with
  | some e => some e
  | none => existing.expiration_date

/-- Lines 195-203 of `update_announcement`: issue the `$set` if
`update_fields` is non-empty (the repeated `if` is the local `db2` of the
session), re-fetch, serialize.  (The `NotFound` branch is unreachable on
the paths the handler takes: the document was found and `$set`/`$unset`
keep it in place.) -/
def applySetAndFetch (db1 : AnnDB) (oid : Nat) (uf : UpdateFields) :
    Except ApiError ShapedAnnouncement × AnnDB :=
  match dbFind (if ufNonEmpty uf then dbUpdateFirst db1 oid (applyUpdateFields uf) else db1)
      oid with
  | some updated =>
    (.ok (serialize_announcement oid updated),
     if ufNonEmpty uf then dbUpdateFirst db1 oid (applyUpdateFields uf) else db1)
  | none =>
    (.error .NotFound,
     if ufNonEmpty uf then dbUpdateFirst db1 oid (applyUpdateFields uf) else db1)

/-- Lines 179-193 of `update_announcement`: the final ordering re-check.
`existing` is the snapshot fetched before any mutation; the effective
values fall back to it even when the `""` sentinel has already unset
`start_date` in `db1`. -/
def recheckAndFinish (db1 : AnnDB) (oid : Nat) (existing : Announcement) (uf : UpdateFields) :
    Except ApiError ShapedAnnouncement × AnnDB :=
  if truthy (ufFinalStart uf existing) && truthy (ufFinalExp uf existing) then
    match pyParseDateTime ((ufFinalStart uf existing).getD ""),
        pyParseDateTime ((ufFinalExp uf existing).getD "") with
    | some st, some ex =>
      match pyGe st ex with
      | none => (.error .Internal, db1)
      | some true => (.error .InvalidDateOrder, db1)
      | some false => applySetAndFetch db1 oid uf
    | _, _ => (.error .InvalidDate, db1)
  else applySetAndFetch db1 oid uf

/-- Lines 165-177 of `update_announcement`: the `start_date` parameter.
The `""` sentinel performs an immediate `$unset` (without touching
`update_fields`); a non-empty value must parse and joins `update_fields`. -/
def startBranch (db : AnnDB) (oid : Nat) (existing : Announcement) (uf : UpdateFields) :
    Option String → Except ApiError ShapedAnnouncement × AnnDB
  | none => recheckAndFinish db oid existing uf
  | some sstr =>
    if sstr = "" then recheckAndFinish (dbUpdateFirst db oid unsetStart) oid existing uf
    else
      match pyParseDateTime sstr with
      | none => (.error .InvalidDate, db)
      | some _ => recheckAndFinish db oid existing { uf with start_date := some sstr }

/-- Lines 152-203 of `update_announcement`, after authentication and the
existence check: collect `message`, validate `expiration_date`, handle
`start_date`, re-check, apply, return. -/
def updateBody (db : AnnDB) (oid : Nat) (existing : Announcement)
    (message expiration_date start_date : Option String) :
    Except ApiError ShapedAnnouncement × AnnDB :=
  match expiration_date with
  | none =>
    startBranch db oid existing
      { message := message, expiration_date := none, start_date := none } start_date
  | some estr =>
    match pyParseDateTime estr with
    | none => (.error .InvalidDate, db)
    | some _ =>
      startBranch db oid existing
        { message := message, expiration_date := some estr, start_date := none } start_date

/-- `PUT /announcements/{id}`. -/
def update_announcement (T : List String) (db : AnnDB) (announcement_id : String)
    (message expiration_date start_date : Option String) (teacher_username : String) :
    Except ApiError ShapedAnnouncement × AnnDB :=
  if teacher_username ∈ T then
    match parseObjectId announcement_id with
    | none => (.error .InvalidIdentifier, db)
    | some oid =>
      match dbFind db oid with
      | none => (.error .NotFound, db)
      | some existing => updateBody db oid existing message expiration_date start_date
  else (.error .Unauthorized, db)

/-- `DELETE /announcements/{id}`. -/
def delete_announcement (T : List String) (db : AnnDB) (announcement_id : String)
    (teacher_username : String) : Except ApiError String × AnnDB :=
  if teacher_username ∈ T then
    match parseObjectId announcement_id with
    | none => (.error .InvalidIdentifier, db)
    | some oid =>
      let r := dbDeleteFirst db oid
      if r.2 = 0 then (.error .NotFound, r.1)
      else (.ok "Announcement deleted successfully", r.1)
  else (.error .Unauthorized, db)

/-- The effective `start_date` of the final re-check, as the code computes
it (line 180): the supplied non-empty value if any, otherwise the value
stored *before* the call — including when the supplied value was the `""`
removal sentinel. -/
def effectiveStart (s : Option String) (existing : Announcement) : Option String :=
  match s with
  | some sstr => if sstr = "" then existing.start_date else some sstr
  | none => existing.start_date

/-- The effective `expiration_date` of the final re-check (line 181). -/
def effectiveExp (e : Option String) (existing : Announcement) : Option String :=
  match e with
  | some estr => some estr
  | none => existing.expiration_date

/-! ## Helper lemmas: identifiers -/

theorem hexVal_natToHexDigit (d : Nat) (h : d < 16) :
    hexVal (natToHexDigit d) = some d := by
  interval_cases d <;> decide

theorem toHexPaddedAux_length (len : Nat) :
    ∀ (n : Nat) (acc : List Char), (toHexPaddedAux len n acc).length = len + acc.length := by
  induction len with
  | zero => intro n acc; simp [toHexPaddedAux]
  | succ len ih =>
    intro n acc
    show (toHexPaddedAux len (n / 16) (natToHexDigit (n % 16) :: acc)).length = _
    rw [ih]
    simp
    omega

theorem parseHexAux_toHexPaddedAux (len : Nat) :
    ∀ (n a : Nat) (acc : List Char), n < 16 ^ len →
      parseHexAux a (toHexPaddedAux len n acc) = parseHexAux (a * 16 ^ len + n) acc := by
  induction len with
  | zero =>
    intro n a acc h
    have hn : n = 0 := by simpa using h
    subst hn
    simp [toHexPaddedAux]
  | succ len ih =>
    intro n a acc h
    show parseHexAux a (toHexPaddedAux len (n / 16) (natToHexDigit (n % 16) :: acc) ) = _
    rw [ih (n / 16) a _ (by rw [pow_succ] at h; omega)]
    show (match hexVal (natToHexDigit (n % 16)) with
      | some d => parseHexAux ((a * 16 ^ len + n / 16) * 16 + d) acc
      | none => none) = _
    rw [hexVal_natToHexDigit (n % 16) (Nat.mod_lt _ (by omega))]
    show parseHexAux ((a * 16 ^ len + n / 16) * 16 + n % 16) acc = _
    congr 1
    rw [pow_succ, ← Nat.mul_assoc]
    omega

theorem parseObjectId_objIdToString (n : Nat) (h : n < 16 ^ 24) :
    parseObjectId (objIdToString n) = some n := by
  show (if (toHexPaddedAux 24 n []).length = 24 then parseHexAux 0 (toHexPaddedAux 24 n [])
    else none) = some n
  rw [toHexPaddedAux_length, parseHexAux_toHexPaddedAux 24 n 0 [] h]
  simp [parseHexAux]

/-! ## Helper lemmas: the collection -/

theorem dbFind_updateFirst_same (db : AnnDB) (oid : Nat) (d : Announcement)
    (f : Announcement → Announcement) (h : dbFind db oid = some d) :
    dbFind (dbUpdateFirst db oid f) oid = some (f d) := by
  induction db with
  | nil => simp [dbFind] at h
  | cons p rest ih =>
    obtain ⟨k, v⟩ := p
    by_cases hk : k = oid
    · subst hk
      simp [dbFind] at h
      simp [dbUpdateFirst, dbFind, h]
    · simp [dbFind, hk] at h
      simp [dbUpdateFirst, dbFind, hk, ih h]

theorem dbFind_updateFirst_ne (db : AnnDB) (oid k : Nat)
    (f : Announcement → Announcement) (h : k ≠ oid) :
    dbFind (dbUpdateFirst db oid f) k = dbFind db k := by
  induction db with
  | nil => rfl
  | cons p rest ih =>
    obtain ⟨k2, v⟩ := p
    by_cases hk : k2 = oid
    · subst hk
      simp [dbUpdateFirst, dbFind, Ne.symm h]
    · simp [dbUpdateFirst, dbFind, hk, ih]

theorem mem_dbUpdateFirst (db : AnnDB) (oid : Nat) (d : Announcement)
    (f : Announcement → Announcement) (h : dbFind db oid = some d) :
    ∀ p ∈ dbUpdateFirst db oid f, p ∈ db ∨ p = (oid, f d) := by
  induction db with
  | nil => intro p hp; simp [dbUpdateFirst] at hp
  | cons q rest ih =>
    obtain ⟨k, v⟩ := q
    intro p hp
    by_cases hk : k = oid
    · subst hk
      simp [dbFind] at h
      subst h
      simp [dbUpdateFirst] at hp
      rcases hp with hp | hp
      · right; simp [hp]
      · left; simp [hp]
    · simp [dbFind, hk] at h
      simp [dbUpdateFirst, hk] at hp
      rcases hp with hp | hp
      · left; simp [hp]
      · rcases ih h p hp with h2 | h2
        · left; simp [h2]
        · right; exact h2

theorem dbFind_append_fresh (db : AnnDB) (k : Nat) (d : Announcement)
    (h : dbFind db k = none) : dbFind (db ++ [(k, d)]) k = some d := by
  induction db with
  | nil => simp [dbFind]
  | cons p rest ih =>
    obtain ⟨k2, v⟩ := p
    by_cases hk : k2 = k
    · subst hk; simp [dbFind] at h
    · simp [dbFind, hk] at h ⊢
      exact ih h

theorem freshId_gt (db : AnnDB) : ∀ p ∈ db, p.1 < freshId db := by
  unfold freshId
  induction db with
  | nil => simp
  | cons q rest ih =>
    intro p hp
    simp only [List.foldr_cons]
    rcases List.mem_cons.mp hp with hp | hp
    · subst hp
      have := le_max_left p.1 (rest.foldr (fun p acc => max p.1 acc) 0)
      omega
    · have h1 := ih p hp
      have h2 := le_max_right q.1 (rest.foldr (fun p acc => max p.1 acc) 0)
      omega

theorem dbFind_eq_none_iff (db : AnnDB) (k : Nat) :
    dbFind db k = none ↔ ∀ p ∈ db, p.1 ≠ k := by
  induction db with
  | nil => simp [dbFind]
  | cons q rest ih =>
    obtain ⟨k2, v⟩ := q
    by_cases hk : k2 = k
    · subst hk; simp [dbFind]
    · simp [dbFind, hk, ih]

theorem dbFind_freshId (db : AnnDB) : dbFind db (freshId db) = none := by
  rw [dbFind_eq_none_iff]
  intro p hp
  exact Nat.ne_of_lt (freshId_gt db p hp)

theorem dbDeleteFirst_zero_iff (db : AnnDB) (oid : Nat) :
    (dbDeleteFirst db oid).2 = 0 ↔ dbFind db oid = none := by
  induction db with
  | nil => simp [dbDeleteFirst, dbFind]
  | cons q rest ih =>
    obtain ⟨k, v⟩ := q
    by_cases hk : k = oid
    · subst hk; simp [dbDeleteFirst, dbFind]
    · simp [dbDeleteFirst, dbFind, hk, ih]

theorem dbDeleteFirst_of_zero (db : AnnDB) (oid : Nat)
    (h : (dbDeleteFirst db oid).2 = 0) : (dbDeleteFirst db oid).1 = db := by
  induction db with
  | nil => rfl
  | cons q rest ih =>
    obtain ⟨k, v⟩ := q
    by_cases hk : k = oid
    · subst hk; simp [dbDeleteFirst] at h
    · simp [dbDeleteFirst, hk] at h ⊢
      exact ih h

theorem dbFind_dbDeleteFirst (db : AnnDB) (oid : Nat)
    (h : (db.map Prod.fst).Nodup) : dbFind (dbDeleteFirst db oid).1 oid = none := by
  induction db with
  | nil => simp [dbDeleteFirst, dbFind]
  | cons q rest ih =>
    obtain ⟨k, v⟩ := q
    simp only [List.map_cons, List.nodup_cons] at h
    by_cases hk : k = oid
    · subst hk
      simp only [dbDeleteFirst, if_pos rfl]
      rw [dbFind_eq_none_iff]
      intro p hp hpk
      exact h.1 (hpk ▸ List.mem_map_of_mem Prod.fst hp)
    · simp only [dbDeleteFirst, if_neg hk, dbFind]
      exact ih h.2

/-! ## Helper lemmas: dates and truthiness -/

theorem pyParseDate_empty : pyParseDate "" = none := rfl

theorem ne_empty_of_parse (s : String) (ts : Int) (h : pyParseDate s = some ts) :
    s ≠ "" := by
  intro he
  rw [he, pyParseDate_empty] at h
  exact Option.noConfusion h

theorem truthy_of_parse (s : String) (ts : Int) (h : pyParseDate s = some ts) :
    truthy (some s) = true := by
  have := ne_empty_of_parse s ts h
  simp [truthy, this]

theorem truthy_some_iff (s : String) : truthy (some s) = true ↔ s ≠ "" := by
  simp [truthy]

theorem pyParseDate_of_DT (s : String) (dt : PyDateTime)
    (h : pyParseDateTime s = some dt) : pyParseDate s = some dt.ts := by
  unfold pyParseDate
  rw [h]
  rfl

theorem parseDT_of_parse (s : String) (ts : Int) (h : pyParseDate s = some ts) :
    ∃ dt, pyParseDateTime s = some dt := by
  unfold pyParseDate at h
  cases hdt : pyParseDateTime s with
  | none =>
    rw [hdt] at h
    exact absurd h (by simp)
  | some dt => exact ⟨dt, rfl⟩

theorem parseDT_none (s : String) (h : pyParseDate s = none) :
    pyParseDateTime s = none := by
  unfold pyParseDate at h
  cases hdt : pyParseDateTime s with
  | none => rfl
  | some dt =>
    rw [hdt] at h
    exact absurd h (by simp)

theorem parse_isSome_of_DT (s : String) (dt : PyDateTime)
    (h : pyParseDateTime s = some dt) : (pyParseDate s).isSome := by
  rw [pyParseDate_of_DT s dt h]
  rfl

theorem pyGe_same (a b : PyDateTime) (h : a.aware = b.aware) :
    pyGe a b = some (decide (b.ts ≤ a.ts)) := by
  unfold pyGe
  rw [if_pos h]

theorem pyGe_mixed (a b : PyDateTime) (h : ¬a.aware = b.aware) : pyGe a b = none := by
  unfold pyGe
  rw [if_neg h]

/-! ## Helper lemmas: string order and the descending sort -/

theorem charsLe_cons (a b : Char) (as bs : List Char) :
    charsLe (a :: as) (b :: bs) =
      if a.toNat < b.toNat then true
      else if b.toNat < a.toNat then false
      else charsLe as bs := rfl

theorem charsLe_total (as : List Char) :
    ∀ bs, charsLe as bs = true ∨ charsLe bs as = true := by
  induction as with
  | nil => intro bs; left; rfl
  | cons a as ih =>
    intro bs
    cases bs with
    | nil => right; rfl
    | cons b bs =>
      rw [charsLe_cons, charsLe_cons]
      by_cases h1 : a.toNat < b.toNat
      · left; rw [if_pos h1]
      · by_cases h2 : b.toNat < a.toNat
        · right; rw [if_pos h2]
        · rw [if_neg h1, if_neg h2, if_neg h2, if_neg h1]
          exact ih bs

theorem charsLe_trans (as : List Char) :
    ∀ bs cs, charsLe as bs = true → charsLe bs cs = true → charsLe as cs = true := by
  induction as with
  | nil => intro bs cs _ _; rfl
  | cons a as ih =>
    intro bs cs hab hbc
    cases bs with
    | nil => exact absurd hab (by simp [charsLe])
    | cons b bs =>
      cases cs with
      | nil => exact absurd hbc (by simp [charsLe])
      | cons c cs =>
        rw [charsLe_cons] at hab hbc ⊢
        by_cases h1 : a.toNat < b.toNat
        · by_cases h3 : b.toNat < c.toNat
          · rw [if_pos (show a.toNat < c.toNat by omega)]
          · rw [if_neg h3] at hbc
            by_cases h4 : c.toNat < b.toNat
            · rw [if_pos h4] at hbc; exact absurd hbc (by simp)
            · rw [if_pos (show a.toNat < c.toNat by omega)]
        · rw [if_neg h1] at hab
          by_cases h2 : b.toNat < a.toNat
          · rw [if_pos h2] at hab; exact absurd hab (by simp)
          · rw [if_neg h2] at hab
            by_cases h3 : b.toNat < c.toNat
            · rw [if_pos (show a.toNat < c.toNat by omega)]
            · rw [if_neg h3] at hbc
              by_cases h4 : c.toNat < b.toNat
              · rw [if_pos h4] at hbc; exact absurd hbc (by simp)
              · rw [if_neg h4] at hbc
                rw [if_neg (show ¬a.toNat < c.toNat by omega),
                  if_neg (show ¬c.toNat < a.toNat by omega)]
                exact ih bs cs hab hbc

theorem strLe_total (a b : String) : strLe a b = true ∨ strLe b a = true :=
  charsLe_total a.data b.data

theorem strLe_trans (a b c : String) (h1 : strLe a b = true) (h2 : strLe b c = true) :
    strLe a c = true :=
  charsLe_trans a.data b.data c.data h1 h2

/-- The descending relation established by `.sort("created_at", -1)`. -/
def DescR (a b : Nat × Announcement) : Prop :=
  strLe b.2.created_at a.2.created_at = true

theorem insertByCreatedAt_perm (p : Nat × Announcement) (l : AnnDB) :
    (insertByCreatedAt p l).Perm (p :: l) := by
  induction l with
  | nil => exact List.Perm.refl _
  | cons q qs ih =>
    show (if strLe q.2.created_at p.2.created_at then p :: q :: qs
      else q :: insertByCreatedAt p qs).Perm (p :: q :: qs)
    by_cases h : strLe q.2.created_at p.2.created_at = true
    · rw [if_pos h]
    · rw [if_neg h]
      exact (ih.cons q).trans (List.Perm.swap p q qs)

theorem sortByCreatedAtDesc_perm (l : AnnDB) : (sortByCreatedAtDesc l).Perm l := by
  induction l with
  | nil => exact List.Perm.refl _
  | cons p ps ih =>
    exact (insertByCreatedAt_perm p (sortByCreatedAtDesc ps)).trans (ih.cons p)

theorem insertByCreatedAt_pairwise (p : Nat × Announcement) (l : AnnDB)
    (h : l.Pairwise DescR) : (insertByCreatedAt p l).Pairwise DescR := by
  induction l with
  | nil => exact List.pairwise_singleton _ _
  | cons q qs ih =>
    rw [List.pairwise_cons] at h
    show (if strLe q.2.created_at p.2.created_at then p :: q :: qs
      else q :: insertByCreatedAt p qs).Pairwise DescR
    by_cases hq : strLe q.2.created_at p.2.created_at = true
    · rw [if_pos hq, List.pairwise_cons]
      constructor
      · intro r hr
        rcases List.mem_cons.mp hr with hr | hr
        · subst hr; exact hq
        · exact strLe_trans _ _ _ (h.1 r hr) hq
      · rw [List.pairwise_cons]
        exact h
    · rw [if_neg hq, List.pairwise_cons]
      constructor
      · intro r hr
        have hr2 := (insertByCreatedAt_perm p qs).mem_iff.mp hr
        rcases List.mem_cons.mp hr2 with hr2 | hr2
        · rw [hr2]
          rcases strLe_total p.2.created_at q.2.created_at with ht | ht
          · exact ht
          · exact absurd ht hq
        · exact h.1 r hr2
      · exact ih h.2

theorem sortByCreatedAtDesc_pairwise (l : AnnDB) :
    (sortByCreatedAtDesc l).Pairwise DescR := by
  induction l with
  | nil => exact List.Pairwise.nil
  | cons p ps ih => exact insertByCreatedAt_pairwise p _ ih

/-! ## Endpoint characterization lemmas -/

theorem delete_announcement_reduce (T : List String) (db : AnnDB) (id u : String) (oid : Nat)
    (hT : u ∈ T) (hp : parseObjectId id = some oid) :
    delete_announcement T db id u =
      if (dbDeleteFirst db oid).2 = 0 then (.error .NotFound, (dbDeleteFirst db oid).1)
      else (.ok "Announcement deleted successfully", (dbDeleteFirst db oid).1) := by
  unfold delete_announcement
  rw [if_pos hT, hp]

theorem update_announcement_reduce (T : List String) (db : AnnDB) (id u : String) (oid : Nat)
    (existing : Announcement) (mu eu su : Option String)
    (hT : u ∈ T) (hp : parseObjectId id = some oid) (hf : dbFind db oid = some existing) :
    update_announcement T db id mu eu su u = updateBody db oid existing mu eu su := by
  unfold update_announcement
  rw [if_pos hT, hp]
  show (match dbFind db oid with
    | none => (Except.error ApiError.NotFound, db)
    | some existing => updateBody db oid existing mu eu su) = _
  rw [hf]

/-! ## C4: unauthorized writes -/

/-- C4: when no teacher record exists for `teacher_username`, `create`,
`update` and `delete` all fail with `Unauthorized` — regardless of every
other argument, including malformed identifiers and invalid dates — and
leave the collection untouched (the teacher check precedes identifier and
date validation). -/
theorem c4_unauthorized_writes (T : List String) (db : AnnDB)
    (m e : String) (s : Option String) (id u now : String) (mu eu su : Option String)
    (h : u ∉ T) :
    create_announcement T db m e s u now = (.error .Unauthorized, db) ∧
    update_announcement T db id mu eu su u = (.error .Unauthorized, db) ∧
    delete_announcement T db id u = (.error .Unauthorized, db) := by
  refine ⟨?_, ?_, ?_⟩
  · unfold create_announcement
    rw [if_neg h]
  · unfold update_announcement
    rw [if_neg h]
  · unfold delete_announcement
    rw [if_neg h]

/-- C4 witness: a missing teacher is rejected with `Unauthorized` even with
a malformed identifier and unparsable dates, and nothing is written. -/
theorem c4_witness :
    create_announcement [] [] "m" "bad-date" (some "also-bad") "ghost" "2026-01-01T00:00:00" =
      (.error .Unauthorized, []) ∧
    update_announcement [] [] "not-an-id" none (some "bad") (some "") "ghost" =
      (.error .Unauthorized, []) ∧
    delete_announcement [] [] "not-an-id" "ghost" = (.error .Unauthorized, []) :=
  c4_unauthorized_writes [] [] "m" "bad-date" (some "also-bad") "not-an-id" "ghost"
    "2026-01-01T00:00:00" none (some "bad") (some "") (by decide)

/-! ## C7: the `active_only` filter -/

theorem activeQueryMatches_false (now : Int) (d : Announcement) :
    activeQueryMatches now d = false := by
  unfold activeQueryMatches
  cases d.expiration_date <;> simp [bsonGte, bsonLte]

/-- C7: the `active_only=true` filter compares the BSON-date query operand
`datetime.utcnow()` against `expiration_date` values stored as strings;
MongoDB comparison operators are type-bracketed, so no document ever
matches and the listing is always empty — contrary to the claimed
date-range behavior (and to the handler's own docstring). -/
theorem c7_active_only_returns_nothing (now : Int) (db : AnnDB) :
    get_announcements true now db = [] := by
  unfold get_announcements
  have hf : db.filter (fun p => activeQueryMatches now p.2) = [] := by
    induction db with
    | nil => rfl
    | cons p ps ih => simp [List.filter_cons, activeQueryMatches_false, ih]
  simp only [if_pos rfl, hf]
  rfl

/-! ## C10: the unfiltered listing -/

/-- C10: `list` with `active_only = false` returns exactly the stored
announcements (as a permutation of their serializations), ordered by
`created_at` descending; it returns `[]` on an empty store, and when the
stored `created_at` values are pairwise distinct the descending order is
strict. -/
theorem c10_list_sorted_desc (now : Int) (db : AnnDB) :
    (get_announcements false now db).Perm
      (db.map (fun p => serialize_announcement p.1 p.2)) ∧
    (get_announcements false now db).Pairwise
      (fun a b => strLe b.created_at a.created_at = true) ∧
    (db = [] → get_announcements false now db = []) ∧
    ((db.map (fun p => p.2.created_at)).Nodup →
      (get_announcements false now db).Pairwise
        (fun a b => strLe b.created_at a.created_at = true ∧ b.created_at ≠ a.created_at)) := by
  have hred : get_announcements false now db =
      (sortByCreatedAtDesc db).map (fun p => serialize_announcement p.1 p.2) := by
    unfold get_announcements
    simp
  have hs := sortByCreatedAtDesc_pairwise db
  refine ⟨?_, ?_, ?_, ?_⟩
  · rw [hred]
    exact (sortByCreatedAtDesc_perm db).map _
  · rw [hred, List.pairwise_map]
    exact hs
  · intro h
    subst h
    rfl
  · intro hnd
    rw [hred, List.pairwise_map]
    have hperm := (sortByCreatedAtDesc_perm db).map (fun p => p.2.created_at)
    have hnd2 : ((sortByCreatedAtDesc db).map (fun p => p.2.created_at)).Nodup :=
      hperm.nodup_iff.mpr hnd
    have hne : (sortByCreatedAtDesc db).Pairwise
        (fun a b => a.2.created_at ≠ b.2.created_at) := List.pairwise_map.mp hnd2
    exact (hs.and hne).imp (fun h => ⟨h.1, Ne.symm h.2⟩)

/-- C10 witness: on a concrete store with distinct timestamps the listing
is strictly descending by `created_at`. -/
theorem c10_witness :
    (get_announcements false 0
        [(1, ⟨"a", some "2999-01-01T00:00:00", none, "t", "2026-01-01T00:00:00", []⟩),
         (2, ⟨"b", some "2999-01-01T00:00:00", none, "t", "2026-01-02T00:00:00", []⟩)]).Pairwise
      (fun a b => strLe b.created_at a.created_at = true ∧ b.created_at ≠ a.created_at) :=
  (c10_list_sorted_desc 0
    [(1, ⟨"a", some "2999-01-01T00:00:00", none, "t", "2026-01-01T00:00:00", []⟩),
     (2, ⟨"b", some "2999-01-01T00:00:00", none, "t", "2026-01-02T00:00:00", []⟩)]).2.2.2
    (by decide)

/-! ## C6: identifier handling in `get` and `delete` -/

/-- C6: for `get`, and for `delete` by an existing teacher: an id string
that is not a valid `ObjectId` yields `InvalidIdentifier` (never
`NotFound`); a valid id with no matching document yields `NotFound` (for
`delete`: when nothing was removed, with the collection unchanged); and,
when keys are unique as MongoDB guarantees for `_id`, a second `delete` of
the same id returns `NotFound` rather than crashing. -/
theorem c6_identifier_handling (T : List String) (db : AnnDB) (id u : String)
    (hT : u ∈ T) :
    (parseObjectId id = none →
      get_announcement id db = .error .InvalidIdentifier ∧
      delete_announcement T db id u = (.error .InvalidIdentifier, db)) ∧
    (∀ oid, parseObjectId id = some oid → dbFind db oid = none →
      get_announcement id db = .error .NotFound ∧
      delete_announcement T db id u = (.error .NotFound, db)) ∧
    ((db.map Prod.fst).Nodup → ∀ r db2, delete_announcement T db id u = (.ok r, db2) →
      delete_announcement T db2 id u = (.error .NotFound, db2)) := by
  refine ⟨?_, ?_, ?_⟩
  · intro h
    constructor
    · unfold get_announcement
      rw [h]
    · unfold delete_announcement
      rw [if_pos hT, h]
  · intro oid h hf
    have hz : (dbDeleteFirst db oid).2 = 0 := (dbDeleteFirst_zero_iff db oid).mpr hf
    constructor
    · unfold get_announcement
      rw [h]
      show (match dbFind db oid with
        | none => Except.error ApiError.NotFound
        | some d => Except.ok (serialize_announcement oid d)) = _
      rw [hf]
    · rw [delete_announcement_reduce T db id u oid hT h, if_pos hz,
        dbDeleteFirst_of_zero db oid hz]
  · intro hnd r db2 hdel
    cases hp : parseObjectId id with
    | none =>
      rw [delete_announcement] at hdel
      rw [if_pos hT, hp] at hdel
      exact absurd hdel (by simp)
    | some oid =>
      rw [delete_announcement_reduce T db id u oid hT hp] at hdel
      by_cases hz : (dbDeleteFirst db oid).2 = 0
      · rw [if_pos hz] at hdel
        exact absurd hdel (by simp)
      · rw [if_neg hz] at hdel
        have hdb2 : db2 = (dbDeleteFirst db oid).1 := by
          have := congrArg Prod.snd hdel
          simpa using this.symm
        have hfind : dbFind db2 oid = none := by
          rw [hdb2]
          exact dbFind_dbDeleteFirst db oid hnd
        have hz2 : (dbDeleteFirst db2 oid).2 = 0 :=
          (dbDeleteFirst_zero_iff db2 oid).mpr hfind
        rw [delete_announcement_reduce T db2 id u oid hT hp, if_pos hz2,
          dbDeleteFirst_of_zero db2 oid hz2]

/-- C6 witness: a malformed id yields `InvalidIdentifier` from both `get`
and `delete` with the collection unchanged. -/
theorem c6_witness :
    get_announcement "not-a-valid-id" [] = .error .InvalidIdentifier ∧
    delete_announcement ["t1"] [] "not-a-valid-id" "t1" = (.error .InvalidIdentifier, []) :=
  (c6_identifier_handling ["t1"] [] "not-a-valid-id" "t1" (by decide)).1 (by decide)

/-! ## Create-path characterization -/

theorem createInsert_eq (db : AnnDB) (m e : String) (st : Option String) (u now : String) :
    createInsert db m e st u now =
      (.ok (serialize_announcement (freshId db) ⟨m, some e, st, u, now, []⟩),
       db ++ [(freshId db, ⟨m, some e, st, u, now, []⟩)]) := rfl

theorem create_reduce_unauth (T : List String) (db : AnnDB) (m e : String) (s : Option String)
    (u now : String) (hT : u ∉ T) :
    create_announcement T db m e s u now = (.error .Unauthorized, db) := by
  unfold create_announcement
  rw [if_neg hT]

theorem create_reduce_badexp (T : List String) (db : AnnDB) (m e : String) (s : Option String)
    (u now : String) (hT : u ∈ T) (he : pyParseDateTime e = none) :
    create_announcement T db m e s u now = (.error .InvalidDate, db) := by
  unfold create_announcement
  rw [if_pos hT, he]

theorem create_reduce_nostart (T : List String) (db : AnnDB) (m e : String) (u now : String)
    (ex : PyDateTime) (hT : u ∈ T) (he : pyParseDateTime e = some ex) :
    create_announcement T db m e none u now = createInsert db m e none u now := by
  unfold create_announcement
  rw [if_pos hT, he]

theorem create_reduce_sentinel (T : List String) (db : AnnDB) (m e : String) (u now : String)
    (ex : PyDateTime) (hT : u ∈ T) (he : pyParseDateTime e = some ex) :
    create_announcement T db m e (some "") u now = createInsert db m e none u now := by
  unfold create_announcement
  rw [if_pos hT, he]
  rfl

theorem create_reduce_badstart (T : List String) (db : AnnDB) (m e sstr : String)
    (u now : String) (ex : PyDateTime) (hT : u ∈ T) (he : pyParseDateTime e = some ex)
    (hne : sstr ≠ "") (hs : pyParseDateTime sstr = none) :
    create_announcement T db m e (some sstr) u now = (.error .InvalidDate, db) := by
  unfold create_announcement
  rw [if_pos hT, he]
  show (if sstr = "" then createInsert db m e none u now
    else match pyParseDateTime sstr with
    | none => (Except.error ApiError.InvalidDate, db)
    | some st =>
      match pyGe st ex with
      | none => (Except.error ApiError.Internal, db)
      | some true => (Except.error ApiError.InvalidDateOrder, db)
      | some false => createInsert db m e (some sstr) u now) = _
  rw [if_neg hne, hs]

theorem create_reduce_order (T : List String) (db : AnnDB) (m e sstr : String)
    (u now : String) (ex st : PyDateTime) (hT : u ∈ T) (he : pyParseDateTime e = some ex)
    (hne : sstr ≠ "") (hs : pyParseDateTime sstr = some st)
    (haw : st.aware = ex.aware) (hord : ex.ts ≤ st.ts) :
    create_announcement T db m e (some sstr) u now = (.error .InvalidDateOrder, db) := by
  unfold create_announcement
  rw [if_pos hT, he]
  show (if sstr = "" then createInsert db m e none u now
    else match pyParseDateTime sstr with
    | none => (Except.error ApiError.InvalidDate, db)
    | some st =>
      match pyGe st ex with
      | none => (Except.error ApiError.Internal, db)
      | some true => (Except.error ApiError.InvalidDateOrder, db)
      | some false => createInsert db m e (some sstr) u now) = _
  rw [if_neg hne, hs]
  show (match pyGe st ex with
    | none => (Except.error ApiError.Internal, db)
    | some true => (Except.error ApiError.InvalidDateOrder, db)
    | some false => createInsert db m e (some sstr) u now) = _
  rw [pyGe_same st ex haw, decide_eq_true hord]

theorem create_reduce_internal (T : List String) (db : AnnDB) (m e sstr : String)
    (u now : String) (ex st : PyDateTime) (hT : u ∈ T) (he : pyParseDateTime e = some ex)
    (hne : sstr ≠ "") (hs : pyParseDateTime sstr = some st)
    (haw : ¬st.aware = ex.aware) :
    create_announcement T db m e (some sstr) u now = (.error .Internal, db) := by
  unfold create_announcement
  rw [if_pos hT, he]
  show (if sstr = "" then createInsert db m e none u now
    else match pyParseDateTime sstr with
    | none => (Except.error ApiError.InvalidDate, db)
    | some st =>
      match pyGe st ex with
      | none => (Except.error ApiError.Internal, db)
      | some true => (Except.error ApiError.InvalidDateOrder, db)
      | some false => createInsert db m e (some sstr) u now) = _
  rw [if_neg hne, hs]
  show (match pyGe st ex with
    | none => (Except.error ApiError.Internal, db)
    | some true => (Except.error ApiError.InvalidDateOrder, db)
    | some false => createInsert db m e (some sstr) u now) = _
  rw [pyGe_mixed st ex haw]

theorem create_reduce_goodstart (T : List String) (db : AnnDB) (m e sstr : String)
    (u now : String) (ex st : PyDateTime) (hT : u ∈ T) (he : pyParseDateTime e = some ex)
    (hne : sstr ≠ "") (hs : pyParseDateTime sstr = some st)
    (haw : st.aware = ex.aware) (hord : ¬ex.ts ≤ st.ts) :
    create_announcement T db m e (some sstr) u now = createInsert db m e (some sstr) u now := by
  unfold create_announcement
  rw [if_pos hT, he]
  show (if sstr = "" then createInsert db m e none u now
    else match pyParseDateTime sstr with
    | none => (Except.error ApiError.InvalidDate, db)
    | some st =>
      match pyGe st ex with
      | none => (Except.error ApiError.Internal, db)
      | some true => (Except.error ApiError.InvalidDateOrder, db)
      | some false => createInsert db m e (some sstr) u now) = _
  rw [if_neg hne, hs]
  show (match pyGe st ex with
    | none => (Except.error ApiError.Internal, db)
    | some true => (Except.error ApiError.InvalidDateOrder, db)
    | some false => createInsert db m e (some sstr) u now) = _
  rw [pyGe_same st ex haw, decide_eq_false hord]

theorem get_after_insert (db : AnnDB) (d : Announcement) (hfresh : freshId db < 16 ^ 24) :
    get_announcement (objIdToString (freshId db)) (db ++ [(freshId db, d)]) =
      .ok (serialize_announcement (freshId db) d) := by
  unfold get_announcement
  rw [parseObjectId_objIdToString (freshId db) hfresh]
  show (match dbFind (db ++ [(freshId db, d)]) (freshId db) with
    | none => Except.error ApiError.NotFound
    | some d2 => Except.ok (serialize_announcement (freshId db) d2)) = _
  rw [dbFind_append_fresh db (freshId db) d (dbFind_freshId db)]

theorem createInsert_roundtrip (db : AnnDB) (m e : String) (st : Option String)
    (u now : String) (out : ShapedAnnouncement) (db2 : AnnDB)
    (hfresh : freshId db < 16 ^ 24)
    (hc : createInsert db m e st u now = (.ok out, db2)) :
    get_announcement out.id db2 = .ok out ∧
    out.message = m ∧ out.expiration_date = some e ∧ out.start_date = st ∧
    out.created_by = u ∧ out.created_at = now ∧ out.id = objIdToString (freshId db) := by
  rw [createInsert_eq] at hc
  have hout : out = serialize_announcement (freshId db) ⟨m, some e, st, u, now, []⟩ := by
    have := congrArg Prod.fst hc
    simpa using this.symm
  have hdb2 : db2 = db ++ [(freshId db, ⟨m, some e, st, u, now, []⟩)] := by
    have := congrArg Prod.snd hc
    simpa using this.symm
  subst hout
  subst hdb2
  exact ⟨get_after_insert db _ hfresh, rfl, rfl, rfl, rfl, rfl, rfl⟩

/-! ## C3: `create` validation of `start_date` -/

/-- C3 (amended): for a `create` by an existing teacher with a parseable
`expiration_date`: a supplied non-empty `start_date` that does not parse
fails with `InvalidDate` and inserts nothing; a supplied non-empty
`start_date` that parses with the same offset-awareness as the parsed
`expiration_date` and compares `≥` it fails with `InvalidDateOrder` and
inserts nothing; when the parsed values differ in offset-awareness the
comparison raises an uncaught `TypeError` (an internal 500, not one of
the taxonomy's errors) and nothing is inserted; and a supplied
*empty-string* `start_date` is falsy in `if start_date:` and is treated
as not supplied — the call succeeds (no `InvalidDate`) and inserts a
document without a `start_date` field. -/
theorem c3_create_start_validation (T : List String) (db : AnnDB) (m e : String)
    (s : Option String) (u now : String) (ex : PyDateTime)
    (hT : u ∈ T) (he : pyParseDateTime e = some ex) :
    (∀ sstr, s = some sstr → sstr ≠ "" → pyParseDateTime sstr = none →
      create_announcement T db m e s u now = (.error .InvalidDate, db)) ∧
    (∀ sstr st, s = some sstr → sstr ≠ "" → pyParseDateTime sstr = some st →
      st.aware = ex.aware → ex.ts ≤ st.ts →
      create_announcement T db m e s u now = (.error .InvalidDateOrder, db)) ∧
    (∀ sstr st, s = some sstr → sstr ≠ "" → pyParseDateTime sstr = some st →
      st.aware ≠ ex.aware →
      create_announcement T db m e s u now = (.error .Internal, db)) ∧
    (s = some "" →
      create_announcement T db m e s u now =
        (.ok (serialize_announcement (freshId db) ⟨m, some e, none, u, now, []⟩),
         db ++ [(freshId db, ⟨m, some e, none, u, now, []⟩)])) := by
  refine ⟨?_, ?_, ?_, ?_⟩
  · intro sstr hs hne hparse
    rw [hs]
    exact create_reduce_badstart T db m e sstr u now ex hT he hne hparse
  · intro sstr st hs hne hparse haw hord
    rw [hs]
    exact create_reduce_order T db m e sstr u now ex st hT he hne hparse haw hord
  · intro sstr st hs hne hparse haw
    rw [hs]
    exact create_reduce_internal T db m e sstr u now ex st hT he hne hparse haw
  · intro hs
    rw [hs, create_reduce_sentinel T db m e u now ex hT he, createInsert_eq]

/-- C3 counterexample: the claim predicts `InvalidDate` and no insertion
for an empty-string `start_date`; the code succeeds and inserts a document
with no `start_date` field. -/
theorem c3_counterexample :
    create_announcement ["t1"] [] "hello" "2030-01-01T00:00:00" (some "") "t1"
        "2026-02-03T04:05:06" =
      (.ok ⟨"000000000000000000000001", "hello", some "2030-01-01T00:00:00", none, "t1",
        "2026-02-03T04:05:06", []⟩,
       [(1, ⟨"hello", some "2030-01-01T00:00:00", none, "t1", "2026-02-03T04:05:06", []⟩)]) :=
  rfl

/-- C3 witness: the spec's own example is rejected with `InvalidDateOrder`
and nothing is inserted, while an offset-aware expiration against an
offset-naive start raises the uncaught comparison error. -/
theorem c3_witness :
    create_announcement ["t1"] [] "exam" "2020-01-01T00:00:00" (some "2030-01-01T00:00:00")
        "t1" "2026-01-01T00:00:00" = (.error .InvalidDateOrder, []) ∧
    create_announcement ["t1"] [] "exam" "2030-01-01T00:00:00Z" (some "2031-01-01T00:00:00")
        "t1" "2026-01-01T00:00:00" = (.error .Internal, []) :=
  ⟨(c3_create_start_validation ["t1"] [] "exam" "2020-01-01T00:00:00"
      (some "2030-01-01T00:00:00") "t1" "2026-01-01T00:00:00" ⟨63713433600000000, false⟩
      (by decide) rfl).2.1 "2030-01-01T00:00:00" ⟨64029052800000000, false⟩ rfl
      (by decide) rfl rfl (by decide),
   (c3_create_start_validation ["t1"] [] "exam" "2030-01-01T00:00:00Z"
      (some "2031-01-01T00:00:00") "t1" "2026-01-01T00:00:00" ⟨64029052800000000, true⟩
      (by decide) rfl).2.2.1 "2031-01-01T00:00:00" ⟨64060588800000000, false⟩ rfl
      (by decide) rfl (by decide)⟩

/-! ## C9: round-trip of `create` through `get` -/

/-- C9 (amended): for every successful `create` (with a fresh identifier in
the 12-byte ObjectId range), `get` on the returned id yields exactly the
created document: `message` and `expiration_date` are the original input
strings, `start_date` is the original input string exactly when a
*non-empty* one was supplied (a supplied empty string is stored as absent),
plus `created_by = teacher_username`, the `created_at` timestamp, and the
assigned identifier exposed as the string field `id`. -/
theorem c9_roundtrip (T : List String) (db : AnnDB) (m e : String) (s : Option String)
    (u now : String) (out : ShapedAnnouncement) (db2 : AnnDB)
    (hfresh : freshId db < 16 ^ 24)
    (hc : create_announcement T db m e s u now = (.ok out, db2)) :
    get_announcement out.id db2 = .ok out ∧
    out.message = m ∧
    out.expiration_date = some e ∧
    out.start_date = (if truthy s then s else none) ∧
    out.created_by = u ∧
    out.created_at = now ∧
    out.id = objIdToString (freshId db) := by
  by_cases hT : u ∈ T
  · cases hpe : pyParseDateTime e with
    | none =>
      rw [create_reduce_badexp T db m e s u now hT hpe] at hc
      exact absurd hc (by simp)
    | some ex =>
      cases s with
      | none =>
        rw [create_reduce_nostart T db m e u now ex hT hpe] at hc
        have h := createInsert_roundtrip db m e none u now out db2 hfresh hc
        exact ⟨h.1, h.2.1, h.2.2.1, h.2.2.2.1, h.2.2.2.2.1, h.2.2.2.2.2.1, h.2.2.2.2.2.2⟩
      | some sstr =>
        by_cases hse : sstr = ""
        · subst hse
          rw [create_reduce_sentinel T db m e u now ex hT hpe] at hc
          have h := createInsert_roundtrip db m e none u now out db2 hfresh hc
          exact ⟨h.1, h.2.1, h.2.2.1, h.2.2.2.1, h.2.2.2.2.1, h.2.2.2.2.2.1, h.2.2.2.2.2.2⟩
        · cases hps : pyParseDateTime sstr with
          | none =>
            rw [create_reduce_badstart T db m e sstr u now ex hT hpe hse hps] at hc
            exact absurd hc (by simp)
          | some st =>
            by_cases haw : st.aware = ex.aware
            · by_cases hord : ex.ts ≤ st.ts
              · rw [create_reduce_order T db m e sstr u now ex st hT hpe hse hps haw
                  hord] at hc
                exact absurd hc (by simp)
              · rw [create_reduce_goodstart T db m e sstr u now ex st hT hpe hse hps haw
                  hord] at hc
                have h := createInsert_roundtrip db m e (some sstr) u now out db2 hfresh hc
                refine ⟨h.1, h.2.1, h.2.2.1, ?_, h.2.2.2.2.1, h.2.2.2.2.2.1, h.2.2.2.2.2.2⟩
                rw [h.2.2.2.1, if_pos ((truthy_some_iff sstr).mpr hse)]
            · rw [create_reduce_internal T db m e sstr u now ex st hT hpe hse hps
                haw] at hc
              exact absurd hc (by simp)
  · rw [create_reduce_unauth T db m e s u now hT] at hc
    exact absurd hc (by simp)

/-- C9 counterexample: a create call *supplying* `start_date = ""`
succeeds, and the subsequent `get` shows `start_date` absent — so the
fetched document's `start_date` is not "present exactly when supplied". -/
theorem c9_counterexample :
    create_announcement ["t9"] [] "note" "2031-01-01T00:00:00" (some "") "t9"
        "2026-05-06T07:08:09" =
      (.ok ⟨"000000000000000000000001", "note", some "2031-01-01T00:00:00", none, "t9",
        "2026-05-06T07:08:09", []⟩,
       [(1, ⟨"note", some "2031-01-01T00:00:00", none, "t9", "2026-05-06T07:08:09", []⟩)]) ∧
    get_announcement "000000000000000000000001"
        [(1, ⟨"note", some "2031-01-01T00:00:00", none, "t9", "2026-05-06T07:08:09", []⟩)] =
      .ok ⟨"000000000000000000000001", "note", some "2031-01-01T00:00:00", none, "t9",
        "2026-05-06T07:08:09", []⟩ :=
  ⟨rfl, rfl⟩

/-- C9 witness: the spec's own example round-trips through `get`. -/
theorem c9_witness :
    get_announcement "000000000000000000000001"
        [(1, ⟨"Exam Friday", some "2030-01-01T00:00:00Z", none, "t1",
          "2026-01-02T03:04:05", []⟩)] =
      .ok ⟨"000000000000000000000001", "Exam Friday", some "2030-01-01T00:00:00Z", none, "t1",
        "2026-01-02T03:04:05", []⟩ :=
  (c9_roundtrip ["t1"] [] "Exam Friday" "2030-01-01T00:00:00Z" none "t1" "2026-01-02T03:04:05"
      ⟨"000000000000000000000001", "Exam Friday", some "2030-01-01T00:00:00Z", none, "t1",
        "2026-01-02T03:04:05", []⟩
      [(1, ⟨"Exam Friday", some "2030-01-01T00:00:00Z", none, "t1",
        "2026-01-02T03:04:05", []⟩)]
      (by decide) rfl).1

/-! ## Update-path characterization -/

theorem update_reduce_badid (T : List String) (db : AnnDB) (id u : String)
    (mu eu su : Option String) (hT : u ∈ T) (hp : parseObjectId id = none) :
    update_announcement T db id mu eu su u = (.error .InvalidIdentifier, db) := by
  unfold update_announcement
  rw [if_pos hT, hp]

theorem update_reduce_notfound (T : List String) (db : AnnDB) (id u : String) (oid : Nat)
    (mu eu su : Option String) (hT : u ∈ T) (hp : parseObjectId id = some oid)
    (hfd : dbFind db oid = none) :
    update_announcement T db id mu eu su u = (.error .NotFound, db) := by
  unfold update_announcement
  rw [if_pos hT, hp]
  show (match dbFind db oid with
    | none => (Except.error ApiError.NotFound, db)
    | some existing => updateBody db oid existing mu eu su) = _
  rw [hfd]

theorem updateBody_badexp (db : AnnDB) (oid : Nat) (d : Announcement)
    (mu : Option String) (estr : String) (su : Option String)
    (he : pyParseDate estr = none) :
    updateBody db oid d mu (some estr) su = (.error .InvalidDate, db) := by
  have hdt := parseDT_none estr he
  unfold updateBody
  show (match pyParseDateTime estr with
    | none => (Except.error ApiError.InvalidDate, db)
    | some val =>
      startBranch db oid d ⟨mu, some estr, none⟩ su) = _
  rw [hdt]

theorem updateBody_exp_none (db : AnnDB) (oid : Nat) (d : Announcement)
    (mu su : Option String) :
    updateBody db oid d mu none su =
      startBranch db oid d ⟨mu, none, none⟩ su := rfl

theorem updateBody_exp_some (db : AnnDB) (oid : Nat) (d : Announcement)
    (mu : Option String) (estr : String) (su : Option String) (te : Int)
    (he : pyParseDate estr = some te) :
    updateBody db oid d mu (some estr) su =
      startBranch db oid d ⟨mu, some estr, none⟩ su := by
  obtain ⟨ex, hex⟩ := parseDT_of_parse estr te he
  unfold updateBody
  show (match pyParseDateTime estr with
    | none => (Except.error ApiError.InvalidDate, db)
    | some val =>
      startBranch db oid d ⟨mu, some estr, none⟩ su) = _
  rw [hex]

theorem startBranch_none (db : AnnDB) (oid : Nat) (d : Announcement) (uf : UpdateFields) :
    startBranch db oid d uf none = recheckAndFinish db oid d uf := rfl

theorem startBranch_sentinel (db : AnnDB) (oid : Nat) (d : Announcement) (uf : UpdateFields) :
    startBranch db oid d uf (some "") =
      recheckAndFinish (dbUpdateFirst db oid unsetStart) oid d uf := rfl

theorem startBranch_badstart (db : AnnDB) (oid : Nat) (d : Announcement) (uf : UpdateFields)
    (sstr : String) (hne : sstr ≠ "") (hs : pyParseDate sstr = none) :
    startBranch db oid d uf (some sstr) = (.error .InvalidDate, db) := by
  have hdt := parseDT_none sstr hs
  unfold startBranch
  show (if sstr = "" then recheckAndFinish (dbUpdateFirst db oid unsetStart) oid d uf
    else match pyParseDateTime sstr with
    | none => (Except.error ApiError.InvalidDate, db)
    | some val => recheckAndFinish db oid d { uf with start_date := some sstr }) = _
  rw [if_neg hne, hdt]

theorem startBranch_goodstart (db : AnnDB) (oid : Nat) (d : Announcement) (uf : UpdateFields)
    (sstr : String) (ts : Int) (hne : sstr ≠ "") (hs : pyParseDate sstr = some ts) :
    startBranch db oid d uf (some sstr) =
      recheckAndFinish db oid d { uf with start_date := some sstr } := by
  obtain ⟨st, hst⟩ := parseDT_of_parse sstr ts hs
  unfold startBranch
  show (if sstr = "" then recheckAndFinish (dbUpdateFirst db oid unsetStart) oid d uf
    else match pyParseDateTime sstr with
    | none => (Except.error ApiError.InvalidDate, db)
    | some val => recheckAndFinish db oid d { uf with start_date := some sstr }) = _
  rw [if_neg hne, hst]

theorem recheck_skip (db1 : AnnDB) (oid : Nat) (existing : Announcement) (uf : UpdateFields)
    (h : (truthy (ufFinalStart uf existing) && truthy (ufFinalExp uf existing)) = false) :
    recheckAndFinish db1 oid existing uf = applySetAndFetch db1 oid uf := by
  unfold recheckAndFinish
  rw [h]
  simp

theorem recheck_invalid (db1 : AnnDB) (oid : Nat) (existing : Announcement) (uf : UpdateFields)
    (ht : truthy (ufFinalStart uf existing) = true)
    (he : truthy (ufFinalExp uf existing) = true)
    (hp : pyParseDateTime ((ufFinalStart uf existing).getD "") = none ∨
      pyParseDateTime ((ufFinalExp uf existing).getD "") = none) :
    recheckAndFinish db1 oid existing uf = (.error .InvalidDate, db1) := by
  unfold recheckAndFinish
  rw [ht, he]
  show (match pyParseDateTime ((ufFinalStart uf existing).getD ""),
      pyParseDateTime ((ufFinalExp uf existing).getD "") with
    | some st, some ex =>
      match pyGe st ex with
      | none => (Except.error ApiError.Internal, db1)
      | some true => (Except.error ApiError.InvalidDateOrder, db1)
      | some false => applySetAndFetch db1 oid uf
    | _, _ => (Except.error ApiError.InvalidDate, db1)) = _
  rcases hp with hp | hp
  · rw [hp]
  · cases hps : pyParseDateTime ((ufFinalStart uf existing).getD "") with
    | none => rfl
    | some st => rw [hp]

theorem recheck_order (db1 : AnnDB) (oid : Nat) (existing : Announcement) (uf : UpdateFields)
    (st ex : PyDateTime)
    (ht : truthy (ufFinalStart uf existing) = true)
    (he : truthy (ufFinalExp uf existing) = true)
    (hps : pyParseDateTime ((ufFinalStart uf existing).getD "") = some st)
    (hpe : pyParseDateTime ((ufFinalExp uf existing).getD "") = some ex)
    (haw : st.aware = ex.aware) (hord : ex.ts ≤ st.ts) :
    recheckAndFinish db1 oid existing uf = (.error .InvalidDateOrder, db1) := by
  unfold recheckAndFinish
  rw [ht, he]
  show (match pyParseDateTime ((ufFinalStart uf existing).getD ""),
      pyParseDateTime ((ufFinalExp uf existing).getD "") with
    | some st, some ex =>
      match pyGe st ex with
      | none => (Except.error ApiError.Internal, db1)
      | some true => (Except.error ApiError.InvalidDateOrder, db1)
      | some false => applySetAndFetch db1 oid uf
    | _, _ => (Except.error ApiError.InvalidDate, db1)) = _
  rw [hps, hpe]
  show (match pyGe st ex with
    | none => (Except.error ApiError.Internal, db1)
    | some true => (Except.error ApiError.InvalidDateOrder, db1)
    | some false => applySetAndFetch db1 oid uf) = _
  rw [pyGe_same st ex haw, decide_eq_true hord]

theorem recheck_internal (db1 : AnnDB) (oid : Nat) (existing : Announcement)
    (uf : UpdateFields) (st ex : PyDateTime)
    (ht : truthy (ufFinalStart uf existing) = true)
    (he : truthy (ufFinalExp uf existing) = true)
    (hps : pyParseDateTime ((ufFinalStart uf existing).getD "") = some st)
    (hpe : pyParseDateTime ((ufFinalExp uf existing).getD "") = some ex)
    (haw : ¬st.aware = ex.aware) :
    recheckAndFinish db1 oid existing uf = (.error .Internal, db1) := by
  unfold recheckAndFinish
  rw [ht, he]
  show (match pyParseDateTime ((ufFinalStart uf existing).getD ""),
      pyParseDateTime ((ufFinalExp uf existing).getD "") with
    | some st, some ex =>
      match pyGe st ex with
      | none => (Except.error ApiError.Internal, db1)
      | some true => (Except.error ApiError.InvalidDateOrder, db1)
      | some false => applySetAndFetch db1 oid uf
    | _, _ => (Except.error ApiError.InvalidDate, db1)) = _
  rw [hps, hpe]
  show (match pyGe st ex with
    | none => (Except.error ApiError.Internal, db1)
    | some true => (Except.error ApiError.InvalidDateOrder, db1)
    | some false => applySetAndFetch db1 oid uf) = _
  rw [pyGe_mixed st ex haw]

theorem recheck_pass (db1 : AnnDB) (oid : Nat) (existing : Announcement) (uf : UpdateFields)
    (st ex : PyDateTime)
    (ht : truthy (ufFinalStart uf existing) = true)
    (he : truthy (ufFinalExp uf existing) = true)
    (hps : pyParseDateTime ((ufFinalStart uf existing).getD "") = some st)
    (hpe : pyParseDateTime ((ufFinalExp uf existing).getD "") = some ex)
    (haw : st.aware = ex.aware) (hord : ¬ex.ts ≤ st.ts) :
    recheckAndFinish db1 oid existing uf = applySetAndFetch db1 oid uf := by
  unfold recheckAndFinish
  rw [ht, he]
  show (match pyParseDateTime ((ufFinalStart uf existing).getD ""),
      pyParseDateTime ((ufFinalExp uf existing).getD "") with
    | some st, some ex =>
      match pyGe st ex with
      | none => (Except.error ApiError.Internal, db1)
      | some true => (Except.error ApiError.InvalidDateOrder, db1)
      | some false => applySetAndFetch db1 oid uf
    | _, _ => (Except.error ApiError.InvalidDate, db1)) = _
  rw [hps, hpe]
  show (match pyGe st ex with
    | none => (Except.error ApiError.Internal, db1)
    | some true => (Except.error ApiError.InvalidDateOrder, db1)
    | some false => applySetAndFetch db1 oid uf) = _
  rw [pyGe_same st ex haw, decide_eq_false hord]

theorem applySetAndFetch_found (db1 : AnnDB) (oid : Nat) (uf : UpdateFields)
    (d1 : Announcement) (hf : dbFind db1 oid = some d1) :
    applySetAndFetch db1 oid uf =
      (.ok (serialize_announcement oid (if ufNonEmpty uf then applyUpdateFields uf d1 else d1)),
       if ufNonEmpty uf then dbUpdateFirst db1 oid (applyUpdateFields uf) else db1) := by
  unfold applySetAndFetch
  by_cases hne : ufNonEmpty uf = true
  · rw [if_pos hne, dbFind_updateFirst_same db1 oid d1 (applyUpdateFields uf) hf, if_pos hne]
  · rw [if_neg hne, hf, if_neg hne]

theorem applySetAndFetch_snd (db1 : AnnDB) (oid : Nat) (uf : UpdateFields)
    (res : Except ApiError ShapedAnnouncement) (db2 : AnnDB)
    (h : applySetAndFetch db1 oid uf = (res, db2)) :
    db2 = if ufNonEmpty uf then dbUpdateFirst db1 oid (applyUpdateFields uf) else db1 := by
  unfold applySetAndFetch at h
  split at h
  all_goals
    have h2 := congrArg Prod.snd h
    simpa using h2.symm

theorem updateBody_recheck_cases (db : AnnDB) (oid : Nat) (d : Announcement)
    (mu eu su : Option String)
    (hexp : ∀ estr, eu = some estr → ∃ te, pyParseDate estr = some te)
    (hst : ∀ sstr, su = some sstr → sstr ≠ "" → ∃ ts, pyParseDate sstr = some ts) :
    updateBody db oid d mu eu su =
      recheckAndFinish (if su = some "" then dbUpdateFirst db oid unsetStart else db) oid d
        ⟨mu, eu, if su = some "" then none else su⟩ := by
  have hbody : updateBody db oid d mu eu su = startBranch db oid d ⟨mu, eu, none⟩ su := by
    cases eu with
    | none => exact updateBody_exp_none db oid d mu su
    | some estr =>
      obtain ⟨te, hte⟩ := hexp estr rfl
      exact updateBody_exp_some db oid d mu estr su te hte
  rw [hbody]
  cases su with
  | none =>
    rw [startBranch_none, if_neg (by simp), if_neg (by simp)]
  | some sstr =>
    by_cases hse : sstr = ""
    · subst hse
      rw [startBranch_sentinel, if_pos rfl, if_pos rfl]
    · obtain ⟨ts, hts⟩ := hst sstr rfl hse
      rw [startBranch_goodstart db oid d ⟨mu, eu, none⟩ sstr ts hse hts,
        if_neg (by simpa using hse), if_neg (by simpa using hse)]

theorem update_main (T : List String) (db : AnnDB) (id u : String) (oid : Nat)
    (d : Announcement) (mu eu su : Option String)
    (hT : u ∈ T) (hp : parseObjectId id = some oid) (hf : dbFind db oid = some d)
    (hexp : ∀ estr, eu = some estr → ∃ te, pyParseDate estr = some te)
    (hst : ∀ sstr, su = some sstr → sstr ≠ "" → ∃ ts, pyParseDate sstr = some ts) :
    update_announcement T db id mu eu su u =
      recheckAndFinish (if su = some "" then dbUpdateFirst db oid unsetStart else db) oid d
        ⟨mu, eu, if su = some "" then none else su⟩ :=
  (update_announcement_reduce T db id u oid d mu eu su hT hp hf).trans
    (updateBody_recheck_cases db oid d mu eu su hexp hst)

theorem ufFinalStart_eq (mu eu su : Option String) (d : Announcement) :
    ufFinalStart ⟨mu, eu, if su = some "" then none else su⟩ d = effectiveStart su d := by
  cases su with
  | none => rfl
  | some sstr =>
    by_cases hse : sstr = ""
    · subst hse
      rw [if_pos rfl]
      rfl
    · rw [if_neg (by simpa using hse)]
      show some sstr = if sstr = "" then d.start_date else some sstr
      rw [if_neg hse]

theorem ufFinalExp_eq (mu : Option String) (eu : Option String) (st : Option String)
    (d : Announcement) :
    ufFinalExp ⟨mu, eu, st⟩ d = effectiveExp eu d := by
  cases eu <;> rfl

/-! ## C1: the `update` ordering re-check -/

/-- C1 (amended): for an `update` on an existing announcement by an
existing teacher whose supplied date fields pass their individual
validation, the final re-check runs over the effective `start_date` and
`expiration_date` — the supplied non-empty value if any, else the value
stored *before the call* (so a supplied empty-string sentinel leaves the
effective `start_date` equal to the snapshot value even though the field
has already been removed), else absent.  The call fails with
`InvalidDateOrder` exactly when both effective values are truthy
(present and non-empty) and parse with the same offset-awareness and
start `≥` expiration; it dies with an uncaught comparison `TypeError`
(an internal 500) exactly when both are truthy and parse but one value
is offset-aware and the other naive; it fails with `InvalidDate`
exactly when both are truthy and either fails to parse; and it succeeds
when either effective value is absent or empty. -/
theorem c1_update_recheck (T : List String) (db : AnnDB) (id u : String) (oid : Nat)
    (d : Announcement) (mu eu su : Option String)
    (hT : u ∈ T) (hp : parseObjectId id = some oid) (hf : dbFind db oid = some d)
    (hexp : ∀ estr, eu = some estr → ∃ te, pyParseDate estr = some te)
    (hst : ∀ sstr, su = some sstr → sstr ≠ "" → ∃ ts, pyParseDate sstr = some ts) :
    ((update_announcement T db id mu eu su u).1 = .error .InvalidDateOrder ↔
      (truthy (effectiveStart su d) = true ∧ truthy (effectiveExp eu d) = true ∧
       ∃ st ex, pyParseDateTime ((effectiveStart su d).getD "") = some st ∧
         pyParseDateTime ((effectiveExp eu d).getD "") = some ex ∧
         st.aware = ex.aware ∧ ex.ts ≤ st.ts)) ∧
    ((update_announcement T db id mu eu su u).1 = .error .Internal ↔
      (truthy (effectiveStart su d) = true ∧ truthy (effectiveExp eu d) = true ∧
       ∃ st ex, pyParseDateTime ((effectiveStart su d).getD "") = some st ∧
         pyParseDateTime ((effectiveExp eu d).getD "") = some ex ∧
         ¬st.aware = ex.aware)) ∧
    ((update_announcement T db id mu eu su u).1 = .error .InvalidDate ↔
      (truthy (effectiveStart su d) = true ∧ truthy (effectiveExp eu d) = true ∧
       (pyParseDateTime ((effectiveStart su d).getD "") = none ∨
        pyParseDateTime ((effectiveExp eu d).getD "") = none))) ∧
    ((truthy (effectiveStart su d) = false ∨ truthy (effectiveExp eu d) = false) →
      ∃ out, (update_announcement T db id mu eu su u).1 = .ok out) := by
  rw [update_main T db id u oid d mu eu su hT hp hf hexp hst]
  have hFS : ufFinalStart ⟨mu, eu, if su = some "" then none else su⟩ d =
      effectiveStart su d := ufFinalStart_eq mu eu su d
  have hFE : ufFinalExp ⟨mu, eu, if su = some "" then none else su⟩ d =
      effectiveExp eu d := ufFinalExp_eq mu eu _ d
  have hfd1 : dbFind (if su = some "" then dbUpdateFirst db oid unsetStart else db) oid =
      some (if su = some "" then unsetStart d else d) := by
    by_cases hsent : su = some ""
    · rw [if_pos hsent, if_pos hsent]
      exact dbFind_updateFirst_same db oid d unsetStart hf
    · rw [if_neg hsent, if_neg hsent]
      exact hf
  by_cases hts : truthy (effectiveStart su d) = true
  · by_cases hte : truthy (effectiveExp eu d) = true
    · rcases Option.eq_none_or_eq_some (pyParseDateTime ((effectiveStart su d).getD "")) with
        hps | ⟨st, hps⟩
      · rw [recheck_invalid _ oid d _ (by rw [hFS]; exact hts) (by rw [hFE]; exact hte)
          (Or.inl (by rw [hFS]; exact hps))]
        refine ⟨⟨fun hc => absurd hc (by simp), ?_⟩, ⟨fun hc => absurd hc (by simp), ?_⟩,
          ⟨fun _ => ⟨hts, hte, Or.inl hps⟩, fun _ => rfl⟩, ?_⟩
        · rintro ⟨-, -, st2, ex2, hpts, -, -⟩
          rw [hps] at hpts
          exact absurd hpts (by simp)
        · rintro ⟨-, -, st2, ex2, hpts, -, -⟩
          rw [hps] at hpts
          exact absurd hpts (by simp)
        · rintro (h | h)
          · rw [h] at hts
            exact absurd hts (by simp)
          · rw [h] at hte
            exact absurd hte (by simp)
      · rcases Option.eq_none_or_eq_some (pyParseDateTime ((effectiveExp eu d).getD "")) with
          hpe | ⟨ex, hpe⟩
        · rw [recheck_invalid _ oid d _ (by rw [hFS]; exact hts) (by rw [hFE]; exact hte)
            (Or.inr (by rw [hFE]; exact hpe))]
          refine ⟨⟨fun hc => absurd hc (by simp), ?_⟩, ⟨fun hc => absurd hc (by simp), ?_⟩,
            ⟨fun _ => ⟨hts, hte, Or.inr hpe⟩, fun _ => rfl⟩, ?_⟩
          · rintro ⟨-, -, st2, ex2, -, hpte, -⟩
            rw [hpe] at hpte
            exact absurd hpte (by simp)
          · rintro ⟨-, -, st2, ex2, -, hpte, -⟩
            rw [hpe] at hpte
            exact absurd hpte (by simp)
          · rintro (h | h)
            · rw [h] at hts
              exact absurd hts (by simp)
            · rw [h] at hte
              exact absurd hte (by simp)
        · by_cases haw : st.aware = ex.aware
          · by_cases hord : ex.ts ≤ st.ts
            · rw [recheck_order _ oid d _ st ex (by rw [hFS]; exact hts)
                (by rw [hFE]; exact hte) (by rw [hFS]; exact hps) (by rw [hFE]; exact hpe)
                haw hord]
              refine ⟨⟨fun _ => ⟨hts, hte, st, ex, hps, hpe, haw, hord⟩, fun _ => rfl⟩,
                ⟨fun hc => absurd hc (by simp), ?_⟩,
                ⟨fun hc => absurd hc (by simp), ?_⟩, ?_⟩
              · rintro ⟨-, -, st2, ex2, hpts, hpte, haw2⟩
                rw [hps] at hpts
                rw [hpe] at hpte
                have h1 : st = st2 := by simpa using hpts
                have h2 : ex = ex2 := by simpa using hpte
                subst h1
                subst h2
                exact absurd haw haw2
              · rintro ⟨-, -, (h | h)⟩
                · rw [hps] at h
                  exact absurd h (by simp)
                · rw [hpe] at h
                  exact absurd h (by simp)
              · rintro (h | h)
                · rw [h] at hts
                  exact absurd hts (by simp)
                · rw [h] at hte
                  exact absurd hte (by simp)
            · rw [recheck_pass _ oid d _ st ex (by rw [hFS]; exact hts)
                (by rw [hFE]; exact hte) (by rw [hFS]; exact hps) (by rw [hFE]; exact hpe)
                haw hord, applySetAndFetch_found _ oid _ _ hfd1]
              refine ⟨⟨fun hc => absurd hc (by simp), ?_⟩,
                ⟨fun hc => absurd hc (by simp), ?_⟩,
                ⟨fun hc => absurd hc (by simp), ?_⟩, fun _ => ⟨_, rfl⟩⟩
              · rintro ⟨-, -, st2, ex2, hpts, hpte, haw2, hord2⟩
                rw [hps] at hpts
                rw [hpe] at hpte
                have h1 : st = st2 := by simpa using hpts
                have h2 : ex = ex2 := by simpa using hpte
                subst h1
                subst h2
                exact absurd hord2 hord
              · rintro ⟨-, -, st2, ex2, hpts, hpte, haw2⟩
                rw [hps] at hpts
                rw [hpe] at hpte
                have h1 : st = st2 := by simpa using hpts
                have h2 : ex = ex2 := by simpa using hpte
                subst h1
                subst h2
                exact absurd haw2 (by simpa using haw)
              · rintro ⟨-, -, (h | h)⟩
                · rw [hps] at h
                  exact absurd h (by simp)
                · rw [hpe] at h
                  exact absurd h (by simp)
          · rw [recheck_internal _ oid d _ st ex (by rw [hFS]; exact hts)
              (by rw [hFE]; exact hte) (by rw [hFS]; exact hps) (by rw [hFE]; exact hpe)
              haw]
            refine ⟨⟨fun hc => absurd hc (by simp), ?_⟩,
              ⟨fun _ => ⟨hts, hte, st, ex, hps, hpe, haw⟩, fun _ => rfl⟩,
              ⟨fun hc => absurd hc (by simp), ?_⟩, ?_⟩
            · rintro ⟨-, -, st2, ex2, hpts, hpte, haw2, hord2⟩
              rw [hps] at hpts
              rw [hpe] at hpte
              have h1 : st = st2 := by simpa using hpts
              have h2 : ex = ex2 := by simpa using hpte
              subst h1
              subst h2
              exact absurd haw2 haw
            · rintro ⟨-, -, (h | h)⟩
              · rw [hps] at h
                exact absurd h (by simp)
              · rw [hpe] at h
                exact absurd h (by simp)
            · rintro (h | h)
              · rw [h] at hts
                exact absurd hts (by simp)
              · rw [h] at hte
                exact absurd hte (by simp)
    · have hte2 : truthy (effectiveExp eu d) = false := by
        revert hte
        cases truthy (effectiveExp eu d) <;> simp
      rw [recheck_skip _ oid d _ (by rw [hFS, hFE, hte2]; simp),
        applySetAndFetch_found _ oid _ _ hfd1]
      refine ⟨⟨fun hc => absurd hc (by simp), ?_⟩,
        ⟨fun hc => absurd hc (by simp), ?_⟩,
        ⟨fun hc => absurd hc (by simp), ?_⟩, fun _ => ⟨_, rfl⟩⟩
      · rintro ⟨-, h, -⟩
        rw [hte2] at h
        exact absurd h (by simp)
      · rintro ⟨-, h, -⟩
        rw [hte2] at h
        exact absurd h (by simp)
      · rintro ⟨-, h, -⟩
        rw [hte2] at h
        exact absurd h (by simp)
  · have hts2 : truthy (effectiveStart su d) = false := by
      revert hts
      cases truthy (effectiveStart su d) <;> simp
    rw [recheck_skip _ oid d _ (by rw [hFS, hFE, hts2]; simp),
      applySetAndFetch_found _ oid _ _ hfd1]
    refine ⟨⟨fun hc => absurd hc (by simp), ?_⟩,
      ⟨fun hc => absurd hc (by simp), ?_⟩,
      ⟨fun hc => absurd hc (by simp), ?_⟩, fun _ => ⟨_, rfl⟩⟩
    · rintro ⟨h, -, -⟩
      rw [hts2] at h
      exact absurd h (by simp)
    · rintro ⟨h, -, -⟩
      rw [hts2] at h
      exact absurd h (by simp)
    · rintro ⟨h, -, -⟩
      rw [hts2] at h
      exact absurd h (by simp)

/-- C1 counterexample: with an empty-string `start_date` (the removal
sentinel) and a new earlier `expiration_date`, the claim says the
effective `start_date` is absent and the re-check cannot fail; the code
compares the *pre-call* stored `start_date` against the new
`expiration_date` and fails with `InvalidDateOrder`. -/
theorem c1_counterexample :
    (update_announcement ["t"]
        [(5, ⟨"m", some "2040-01-01T00:00:00", some "2030-01-01T00:00:00", "t", "c", []⟩)]
        "000000000000000000000005" none (some "2020-01-01T00:00:00") (some "") "t").1 =
      .error .InvalidDateOrder := rfl

/-- C1 witness: an update touching no date field on a document with no
`start_date` passes the re-check and succeeds; and supplying an
offset-aware `expiration_date` against a stored offset-naive
`start_date` dies with the uncaught comparison error. -/
theorem c1_witness :
    (∃ out, (update_announcement ["t"]
        [(3, ⟨"m", some "2040-01-01T00:00:00", none, "t", "c", []⟩)]
        "000000000000000000000003" none none none "t").1 = .ok out) ∧
    (update_announcement ["t"]
        [(7, ⟨"m", some "2040-01-01T00:00:00", some "2030-01-01T00:00:00", "t", "c", []⟩)]
        "000000000000000000000007" none (some "2020-01-01T00:00:00Z") none "t").1 =
      .error .Internal :=
  ⟨(c1_update_recheck ["t"] [(3, ⟨"m", some "2040-01-01T00:00:00", none, "t", "c", []⟩)]
      "000000000000000000000003" "t" 3 ⟨"m", some "2040-01-01T00:00:00", none, "t", "c", []⟩
      none none none (by decide) rfl rfl
      (fun estr h => nomatch h) (fun sstr h _ => nomatch h)).2.2.2 (Or.inl rfl),
   (c1_update_recheck ["t"]
      [(7, ⟨"m", some "2040-01-01T00:00:00", some "2030-01-01T00:00:00", "t", "c", []⟩)]
      "000000000000000000000007" "t" 7
      ⟨"m", some "2040-01-01T00:00:00", some "2030-01-01T00:00:00", "t", "c", []⟩
      none (some "2020-01-01T00:00:00Z") none (by decide) rfl rfl
      (fun estr h => ⟨63713433600000000, by rw [← Option.some.inj h]; rfl⟩)
      (fun sstr h _ => nomatch h)).2.1.mpr
     ⟨rfl, rfl, ⟨64029052800000000, false⟩, ⟨63713433600000000, true⟩, rfl, rfl,
       by decide⟩⟩

/-! ## C2: the removal sentinel -/

theorem get_found (id : String) (db : AnnDB) (oid : Nat) (d : Announcement)
    (hp : parseObjectId id = some oid) (hf : dbFind db oid = some d) :
    get_announcement id db = .ok (serialize_announcement oid d) := by
  unfold get_announcement
  rw [hp]
  show (match dbFind db oid with
    | none => Except.error ApiError.NotFound
    | some d2 => Except.ok (serialize_announcement oid d2)) = _
  rw [hf]

theorem applySetAndFetch_start_none (db1 : AnnDB) (oid : Nat) (uf : UpdateFields)
    (d1 : Announcement) (hf : dbFind db1 oid = some d1)
    (h1 : d1.start_date = none) (h2 : uf.start_date = none) :
    ∃ d2, dbFind (applySetAndFetch db1 oid uf).2 oid = some d2 ∧ d2.start_date = none := by
  rw [applySetAndFetch_found db1 oid uf d1 hf]
  by_cases hne : ufNonEmpty uf = true
  · rw [if_pos hne, if_pos hne]
    refine ⟨applyUpdateFields uf d1,
      dbFind_updateFirst_same db1 oid d1 (applyUpdateFields uf) hf, ?_⟩
    show (match uf.start_date with
      | some s => some s
      | none => d1.start_date) = none
    rw [h2, h1]
  · rw [if_neg hne, if_neg hne]
    exact ⟨d1, hf, h1⟩

theorem recheckAndFinish_start_none (db1 : AnnDB) (oid : Nat) (existing : Announcement)
    (uf : UpdateFields) (d1 : Announcement) (hf : dbFind db1 oid = some d1)
    (h1 : d1.start_date = none) (h2 : uf.start_date = none) :
    ∃ d2, dbFind (recheckAndFinish db1 oid existing uf).2 oid = some d2 ∧
      d2.start_date = none := by
  unfold recheckAndFinish
  split
  · split
    · split
      · exact ⟨d1, hf, h1⟩
      · exact ⟨d1, hf, h1⟩
      · exact applySetAndFetch_start_none db1 oid uf d1 hf h1 h2
    · exact ⟨d1, hf, h1⟩
  · exact applySetAndFetch_start_none db1 oid uf d1 hf h1 h2

/-- C2 (amended): for an `update` on an existing announcement by an
existing teacher supplying the empty-string `start_date` sentinel, and
whose supplied `expiration_date` (if any) parses, the `start_date` field
is removed by an immediate unset: after the call (whether it returns the
updated document or fails the final re-check) the stored document has no
`start_date`, and a `get` of the same id shows it absent.  (When the
supplied `expiration_date` does not parse, the call errors *before* the
unset and no removal happens — see the counterexample.) -/
theorem c2_sentinel_removal (T : List String) (db : AnnDB) (id u : String) (oid : Nat)
    (d : Announcement) (mu eu : Option String)
    (hT : u ∈ T) (hp : parseObjectId id = some oid) (hf : dbFind db oid = some d)
    (hexp : ∀ estr, eu = some estr → ∃ te, pyParseDate estr = some te) :
    ∃ d2, dbFind (update_announcement T db id mu eu (some "") u).2 oid = some d2 ∧
      d2.start_date = none ∧
      get_announcement id (update_announcement T db id mu eu (some "") u).2 =
        .ok (serialize_announcement oid d2) := by
  rw [update_main T db id u oid d mu eu (some "") hT hp hf hexp
    (fun sstr hs hne => absurd (Option.some.inj hs).symm hne)]
  rw [if_pos rfl, if_pos rfl]
  obtain ⟨d2, hfind, hstart⟩ :=
    recheckAndFinish_start_none (dbUpdateFirst db oid unsetStart) oid d
      ⟨mu, eu, none⟩ (unsetStart d)
      (dbFind_updateFirst_same db oid d unsetStart hf) rfl rfl
  exact ⟨d2, hfind, hstart, get_found id _ oid d2 hp hfind⟩

/-- C2 counterexample: the claim says the removal happens for *every*
update supplying the sentinel, independently of the rest of the update;
but when the supplied `expiration_date` fails its parse validation the
call errors before the unset is issued, and the stored `start_date`
survives. -/
theorem c2_counterexample :
    update_announcement ["t"]
        [(5, ⟨"m", some "2040-01-01T00:00:00", some "2030-01-01T00:00:00", "t", "c", []⟩)]
        "000000000000000000000005" none (some "garbage") (some "") "t" =
      (.error .InvalidDate,
       [(5, ⟨"m", some "2040-01-01T00:00:00", some "2030-01-01T00:00:00", "t", "c", []⟩)]) :=
  rfl

/-- C2 witness: a sentinel-only update removes the stored `start_date` and
the subsequent `get` shows it absent. -/
theorem c2_witness :
    ∃ d2, dbFind (update_announcement ["t"]
        [(5, ⟨"m", some "2040-01-01T00:00:00", some "2030-01-01T00:00:00", "t", "c", []⟩)]
        "000000000000000000000005" none none (some "") "t").2 5 = some d2 ∧
      d2.start_date = none ∧
      get_announcement "000000000000000000000005" (update_announcement ["t"]
        [(5, ⟨"m", some "2040-01-01T00:00:00", some "2030-01-01T00:00:00", "t", "c", []⟩)]
        "000000000000000000000005" none none (some "") "t").2 =
        .ok (serialize_announcement 5 d2) :=
  c2_sentinel_removal ["t"]
    [(5, ⟨"m", some "2040-01-01T00:00:00", some "2030-01-01T00:00:00", "t", "c", []⟩)]
    "000000000000000000000005" "t" 5
    ⟨"m", some "2040-01-01T00:00:00", some "2030-01-01T00:00:00", "t", "c", []⟩
    none none (by decide) rfl rfl (fun estr h => nomatch h)

/-! ## C8: the update frame -/

theorem applyUpdateFields_empty (uf : UpdateFields) (d1 : Announcement)
    (h : ufNonEmpty uf = false) : applyUpdateFields uf d1 = d1 := by
  obtain ⟨h1, h2, h3⟩ : uf.message = none ∧ uf.expiration_date = none ∧
      uf.start_date = none := by
    revert h
    unfold ufNonEmpty
    cases uf.message <;> cases uf.expiration_date <;> cases uf.start_date <;> simp
  unfold applyUpdateFields
  rw [h1, h2, h3]

theorem recheckAndFinish_ok (db1 : AnnDB) (oid : Nat) (existing : Announcement)
    (uf : UpdateFields) (out : ShapedAnnouncement) (db2 : AnnDB)
    (h : recheckAndFinish db1 oid existing uf = (.ok out, db2)) :
    db2 = if ufNonEmpty uf then dbUpdateFirst db1 oid (applyUpdateFields uf) else db1 := by
  unfold recheckAndFinish at h
  split at h
  · split at h
    · split at h
      · exact absurd h (by simp)
      · exact absurd h (by simp)
      · exact applySetAndFetch_snd db1 oid uf _ db2 h
    · exact absurd h (by simp)
  · exact applySetAndFetch_snd db1 oid uf _ db2 h

/-- C8: a successful `update` writes only the supplied fields — `message`,
a parse-validated `expiration_date`, a non-empty `start_date`, or the
sentinel removal of `start_date` — and leaves `created_by`, `created_at`,
any extra fields, every unsupplied field, and every other document
untouched; an update supplying no optional field at all leaves the
collection exactly as it was. -/
theorem c8_update_frame (T : List String) (db : AnnDB) (id u : String) (oid : Nat)
    (d : Announcement) (mu eu su : Option String) (out : ShapedAnnouncement) (db2 : AnnDB)
    (hT : u ∈ T) (hp : parseObjectId id = some oid) (hf : dbFind db oid = some d)
    (hs : update_announcement T db id mu eu su u = (.ok out, db2)) :
    ∃ d2, dbFind db2 oid = some d2 ∧
      d2.created_by = d.created_by ∧
      d2.created_at = d.created_at ∧
      d2.extra = d.extra ∧
      d2.message = mu.getD d.message ∧
      d2.expiration_date = eu.elim d.expiration_date some ∧
      d2.start_date = (if su = some "" then none else su.elim d.start_date some) ∧
      (∀ k, k ≠ oid → dbFind db2 k = dbFind db k) ∧
      (mu = none → eu = none → su = none → db2 = db) := by
  rw [update_announcement_reduce T db id u oid d mu eu su hT hp hf] at hs
  have hexp : ∀ estr, eu = some estr → ∃ te, pyParseDate estr = some te := by
    intro estr he
    subst he
    rcases Option.eq_none_or_eq_some (pyParseDate estr) with hn | ⟨te, hte⟩
    · rw [updateBody_badexp db oid d mu estr su hn] at hs
      exact absurd hs (by simp)
    · exact ⟨te, hte⟩
  have hst : ∀ sstr, su = some sstr → sstr ≠ "" → ∃ ts, pyParseDate sstr = some ts := by
    intro sstr hsu hne
    subst hsu
    rcases Option.eq_none_or_eq_some (pyParseDate sstr) with hn | ⟨ts, hts⟩
    · have hb : updateBody db oid d mu eu (some sstr) = (.error .InvalidDate, db) := by
        cases eu with
        | none =>
          rw [updateBody_exp_none, startBranch_badstart db oid d _ sstr hne hn]
        | some estr =>
          obtain ⟨te, hte⟩ := hexp estr rfl
          rw [updateBody_exp_some db oid d mu estr (some sstr) te hte,
            startBranch_badstart db oid d _ sstr hne hn]
      rw [hb] at hs
      exact absurd hs (by simp)
    · exact ⟨ts, hts⟩
  rw [updateBody_recheck_cases db oid d mu eu su hexp hst] at hs
  have hfd1 : dbFind (if su = some "" then dbUpdateFirst db oid unsetStart else db) oid =
      some (if su = some "" then unsetStart d else d) := by
    by_cases hsent : su = some ""
    · rw [if_pos hsent, if_pos hsent]
      exact dbFind_updateFirst_same db oid d unsetStart hf
    · rw [if_neg hsent, if_neg hsent]
      exact hf
  have hdb1k : ∀ k, k ≠ oid →
      dbFind (if su = some "" then dbUpdateFirst db oid unsetStart else db) k =
        dbFind db k := by
    intro k hk
    by_cases hsent : su = some ""
    · rw [if_pos hsent]
      exact dbFind_updateFirst_ne db oid k unsetStart hk
    · rw [if_neg hsent]
  have hdb2 := recheckAndFinish_ok _ oid d _ out db2 hs
  refine ⟨applyUpdateFields ⟨mu, eu, if su = some "" then none else su⟩
    (if su = some "" then unsetStart d else d), ?_, ?_, ?_, ?_, ?_, ?_, ?_, ?_, ?_⟩
  · rw [hdb2]
    by_cases hne : ufNonEmpty ⟨mu, eu, if su = some "" then none else su⟩ = true
    · rw [if_pos hne]
      exact dbFind_updateFirst_same _ oid _ _ hfd1
    · rw [if_neg hne]
      rw [applyUpdateFields_empty _ _ (by simpa using hne)]
      exact hfd1
  · by_cases hsent : su = some ""
    · simp only [if_pos hsent]
      rfl
    · simp only [if_neg hsent]
      rfl
  · by_cases hsent : su = some ""
    · simp only [if_pos hsent]
      rfl
    · simp only [if_neg hsent]
      rfl
  · by_cases hsent : su = some ""
    · simp only [if_pos hsent]
      rfl
    · simp only [if_neg hsent]
      rfl
  · cases mu with
    | some m2 => rfl
    | none =>
      by_cases hsent : su = some ""
      · simp only [if_pos hsent]
        rfl
      · simp only [if_neg hsent]
        rfl
  · cases eu with
    | some e2 => rfl
    | none =>
      by_cases hsent : su = some ""
      · simp only [if_pos hsent]
        rfl
      · simp only [if_neg hsent]
        rfl
  · cases su with
    | none => rfl
    | some sstr =>
      by_cases hse : sstr = ""
      · subst hse
        rfl
      · simp only [if_neg (show ¬(some sstr = some "") from by simpa using hse)]
        rfl
  · intro k hk
    rw [hdb2]
    by_cases hne : ufNonEmpty ⟨mu, eu, if su = some "" then none else su⟩ = true
    · rw [if_pos hne, dbFind_updateFirst_ne _ oid k _ hk]
      exact hdb1k k hk
    · rw [if_neg hne]
      exact hdb1k k hk
  · intro hm he2 hsu
    subst hm
    subst he2
    subst hsu
    rw [hdb2]
    rfl

/-- C8 witness: an update supplying no optional field at all succeeds and
leaves the collection completely unmodified. -/
theorem c8_witness :
    ∃ d2, dbFind [(5, (⟨"m", some "2040-01-01T00:00:00", some "2030-01-01T00:00:00",
        "t", "c", []⟩ : Announcement))] 5 = some d2 ∧
      d2.created_by = "t" ∧
      d2.created_at = "c" ∧
      d2.extra = [] ∧
      d2.message = "m" ∧
      d2.expiration_date = some "2040-01-01T00:00:00" ∧
      d2.start_date = some "2030-01-01T00:00:00" ∧
      (∀ k, k ≠ 5 → dbFind [(5, (⟨"m", some "2040-01-01T00:00:00",
          some "2030-01-01T00:00:00", "t", "c", []⟩ : Announcement))] k =
        dbFind [(5, (⟨"m", some "2040-01-01T00:00:00", some "2030-01-01T00:00:00",
          "t", "c", []⟩ : Announcement))] k) ∧
      ((none : Option String) = none → (none : Option String) = none →
        (none : Option String) = none →
        [(5, (⟨"m", some "2040-01-01T00:00:00", some "2030-01-01T00:00:00",
          "t", "c", []⟩ : Announcement))] =
          [(5, (⟨"m", some "2040-01-01T00:00:00", some "2030-01-01T00:00:00",
            "t", "c", []⟩ : Announcement))]) :=
  c8_update_frame ["t"]
    [(5, ⟨"m", some "2040-01-01T00:00:00", some "2030-01-01T00:00:00", "t", "c", []⟩)]
    "000000000000000000000005" "t" 5
    ⟨"m", some "2040-01-01T00:00:00", some "2030-01-01T00:00:00", "t", "c", []⟩
    none none none
    (serialize_announcement 5
      ⟨"m", some "2040-01-01T00:00:00", some "2030-01-01T00:00:00", "t", "c", []⟩)
    [(5, ⟨"m", some "2040-01-01T00:00:00", some "2030-01-01T00:00:00", "t", "c", []⟩)]
    (by decide) rfl rfl rfl

/-! ## C5: the date-order invariant over all reachable states -/

theorem dbFind_mem (db : AnnDB) (oid : Nat) (d : Announcement)
    (h : dbFind db oid = some d) : (oid, d) ∈ db := by
  induction db with
  | nil => simp [dbFind] at h
  | cons q rest ih =>
    obtain ⟨k, v⟩ := q
    by_cases hk : k = oid
    · subst hk
      simp [dbFind] at h
      subst h
      exact List.mem_cons_self _ _
    · simp [dbFind, hk] at h
      exact List.mem_cons_of_mem _ (ih h)

theorem mem_dbDeleteFirst (db : AnnDB) (oid : Nat) :
    ∀ p ∈ (dbDeleteFirst db oid).1, p ∈ db := by
  induction db with
  | nil =>
    intro p hp
    simp [dbDeleteFirst] at hp
  | cons q rest ih =>
    obtain ⟨k, v⟩ := q
    intro p hp
    by_cases hk : k = oid
    · subst hk
      simp [dbDeleteFirst] at hp
      exact List.mem_cons_of_mem _ hp
    · simp [dbDeleteFirst, hk] at hp
      rcases hp with hp | hp
      · simp [hp]
      · exact List.mem_cons_of_mem _ (ih p hp)

/-- The maintained invariant of every stored document: stored dates parse
(hence are non-empty), and when both dates are present the parsed start is
strictly before the parsed expiration. -/
def StrongInv (d : Announcement) : Prop :=
  (∀ estr, d.expiration_date = some estr → (pyParseDate estr).isSome) ∧
  (∀ sstr, d.start_date = some sstr → (pyParseDate sstr).isSome) ∧
  (∀ sstr estr, d.start_date = some sstr → d.expiration_date = some estr →
    ∃ ts te, pyParseDate sstr = some ts ∧ pyParseDate estr = some te ∧ ts < te)

theorem strongInv_unset (d : Announcement) (h : StrongInv d) : StrongInv (unsetStart d) :=
  ⟨h.1, fun sstr hs => absurd hs (by simp [unsetStart]),
   fun sstr estr hs _ => absurd hs (by simp [unsetStart])⟩

theorem apply_strongInv (uf : UpdateFields) (existing d1 : Announcement)
    (hinvd : StrongInv existing)
    (hd1 : d1 = existing ∨ (d1 = unsetStart existing ∧ uf.start_date = none))
    (hufe : ∀ estr, uf.expiration_date = some estr → (pyParseDate estr).isSome)
    (hufs : ∀ sstr, uf.start_date = some sstr → (pyParseDate sstr).isSome)
    (hord : ∀ s2 e2, ufFinalStart uf existing = some s2 → ufFinalExp uf existing = some e2 →
      ∃ ts te, pyParseDate s2 = some ts ∧ pyParseDate e2 = some te ∧ ts < te) :
    StrongInv (applyUpdateFields uf d1) := by
  have hd1exp : d1.expiration_date = existing.expiration_date := by
    rcases hd1 with h | ⟨h, -⟩
    · rw [h]
    · rw [h]
      rfl
  refine ⟨?_, ?_, ?_⟩
  · intro estr he
    revert he
    show (match uf.expiration_date with
      | some e => some e
      | none => d1.expiration_date) = some estr → _
    cases hue : uf.expiration_date with
    | some e =>
      intro he
      exact hufe estr (by rw [hue, Option.some.inj he])
    | none =>
      intro he
      rw [hd1exp] at he
      exact hinvd.1 estr he
  · intro sstr hss
    revert hss
    show (match uf.start_date with
      | some s => some s
      | none => d1.start_date) = some sstr → _
    cases hus : uf.start_date with
    | some s =>
      intro hss
      exact hufs sstr (by rw [hus, Option.some.inj hss])
    | none =>
      intro hss
      rcases hd1 with h | ⟨h, -⟩
      · rw [h] at hss
        exact hinvd.2.1 sstr hss
      · rw [h] at hss
        exact absurd hss (by simp [unsetStart])
  · intro sstr estr hss hee
    have hfs : ufFinalStart uf existing = some sstr := by
      revert hss
      show (match uf.start_date with
        | some s => some s
        | none => d1.start_date) = some sstr → _
      unfold ufFinalStart
      cases hus : uf.start_date with
      | some s => intro hss; exact hss
      | none =>
        intro hss
        rcases hd1 with h | ⟨h, -⟩
        · rw [h] at hss
          exact hss
        · rw [h] at hss
          exact absurd hss (by simp [unsetStart])
    have hfe : ufFinalExp uf existing = some estr := by
      revert hee
      show (match uf.expiration_date with
        | some e => some e
        | none => d1.expiration_date) = some estr → _
      unfold ufFinalExp
      cases hue : uf.expiration_date with
      | some e => intro hee; exact hee
      | none =>
        intro hee
        rw [hd1exp] at hee
        exact hee
    exact hord sstr estr hfs hfe

theorem recheck_preserves_inv (db1 : AnnDB) (oid : Nat) (existing : Announcement)
    (uf : UpdateFields) (res : Except ApiError ShapedAnnouncement) (db2 : AnnDB)
    (d1 : Announcement)
    (hinv1 : ∀ p ∈ db1, StrongInv p.2)
    (hinvd : StrongInv existing)
    (hfd1 : dbFind db1 oid = some d1)
    (hd1 : d1 = existing ∨ (d1 = unsetStart existing ∧ uf.start_date = none))
    (hufe : ∀ estr, uf.expiration_date = some estr → (pyParseDate estr).isSome)
    (hufs : ∀ sstr, uf.start_date = some sstr → (pyParseDate sstr).isSome)
    (hc : recheckAndFinish db1 oid existing uf = (res, db2)) :
    ∀ p ∈ db2, StrongInv p.2 := by
  have htrs : ∀ s2, ufFinalStart uf existing = some s2 → (pyParseDate s2).isSome := by
    intro s2 h
    revert h
    unfold ufFinalStart
    cases hus : uf.start_date with
    | some s => intro h; exact (Option.some.inj h) ▸ hufs s hus
    | none => intro h; exact hinvd.2.1 s2 h
  have htre : ∀ e2, ufFinalExp uf existing = some e2 → (pyParseDate e2).isSome := by
    intro e2 h
    revert h
    unfold ufFinalExp
    cases hue : uf.expiration_date with
    | some e => intro h; exact (Option.some.inj h) ▸ hufe e hue
    | none => intro h; exact hinvd.1 e2 h
  by_cases hcond : (truthy (ufFinalStart uf existing) &&
      truthy (ufFinalExp uf existing)) = true
  · obtain ⟨hbs, hbe⟩ : truthy (ufFinalStart uf existing) = true ∧
        truthy (ufFinalExp uf existing) = true := by
      simpa [Bool.and_eq_true] using hcond
    rcases Option.eq_none_or_eq_some
        (pyParseDateTime ((ufFinalStart uf existing).getD "")) with hps | ⟨st, hps⟩
    · rw [recheck_invalid db1 oid existing uf hbs hbe (Or.inl hps)] at hc
      obtain rfl : db2 = db1 := by
        have := congrArg Prod.snd hc
        simpa using this.symm
      exact hinv1
    · rcases Option.eq_none_or_eq_some
          (pyParseDateTime ((ufFinalExp uf existing).getD "")) with hpe | ⟨ex, hpe⟩
      · rw [recheck_invalid db1 oid existing uf hbs hbe (Or.inr hpe)] at hc
        obtain rfl : db2 = db1 := by
          have := congrArg Prod.snd hc
          simpa using this.symm
        exact hinv1
      · by_cases haw : st.aware = ex.aware
        · by_cases hord : ex.ts ≤ st.ts
          · rw [recheck_order db1 oid existing uf st ex hbs hbe hps hpe haw hord] at hc
            obtain rfl : db2 = db1 := by
              have := congrArg Prod.snd hc
              simpa using this.symm
            exact hinv1
          · rw [recheck_pass db1 oid existing uf st ex hbs hbe hps hpe haw hord] at hc
            have hdb2 := applySetAndFetch_snd db1 oid uf res db2 hc
            subst hdb2
            have hinv2 : StrongInv (applyUpdateFields uf d1) := by
              refine apply_strongInv uf existing d1 hinvd hd1 hufe hufs ?_
              intro s2 e2 hfs hfe
              rw [hfs] at hps
              rw [hfe] at hpe
              exact ⟨st.ts, ex.ts, pyParseDate_of_DT s2 st (by simpa using hps),
                pyParseDate_of_DT e2 ex (by simpa using hpe), not_le.mp hord⟩
            by_cases hne : ufNonEmpty uf = true
            · rw [if_pos hne]
              intro p hp
              rcases mem_dbUpdateFirst db1 oid d1 _ hfd1 p hp with h | h
              · exact hinv1 p h
              · rw [h]
                exact hinv2
            · rw [if_neg hne]
              exact hinv1
        · rw [recheck_internal db1 oid existing uf st ex hbs hbe hps hpe haw] at hc
          obtain rfl : db2 = db1 := by
            have := congrArg Prod.snd hc
            simpa using this.symm
          exact hinv1
  · have hc2 : (truthy (ufFinalStart uf existing) &&
        truthy (ufFinalExp uf existing)) = false := by
      simpa using hcond
    rw [recheck_skip db1 oid existing uf hc2] at hc
    have hdb2 := applySetAndFetch_snd db1 oid uf res db2 hc
    subst hdb2
    have hinv2 : StrongInv (applyUpdateFields uf d1) := by
      refine apply_strongInv uf existing d1 hinvd hd1 hufe hufs ?_
      intro s2 e2 hfs hfe
      exfalso
      have h1 : truthy (ufFinalStart uf existing) = true := by
        rw [hfs]
        obtain ⟨ts0, hts0⟩ := Option.isSome_iff_exists.mp (htrs s2 hfs)
        exact truthy_of_parse s2 ts0 hts0
      have h2 : truthy (ufFinalExp uf existing) = true := by
        rw [hfe]
        obtain ⟨te0, hte0⟩ := Option.isSome_iff_exists.mp (htre e2 hfe)
        exact truthy_of_parse e2 te0 hte0
      rw [h1, h2] at hc2
      exact absurd hc2 (by simp)
    by_cases hne : ufNonEmpty uf = true
    · rw [if_pos hne]
      intro p hp
      rcases mem_dbUpdateFirst db1 oid d1 _ hfd1 p hp with h | h
      · exact hinv1 p h
      · rw [h]
        exact hinv2
    · rw [if_neg hne]
      exact hinv1

theorem startBranch_preserves_inv (db : AnnDB) (oid : Nat) (d : Announcement)
    (uf : UpdateFields) (su : Option String) (res : Except ApiError ShapedAnnouncement)
    (db2 : AnnDB)
    (hinv : ∀ p ∈ db, StrongInv p.2) (hinvd : StrongInv d) (hfd : dbFind db oid = some d)
    (hufe : ∀ estr, uf.expiration_date = some estr → (pyParseDate estr).isSome)
    (hufs0 : uf.start_date = none)
    (hc : startBranch db oid d uf su = (res, db2)) :
    ∀ p ∈ db2, StrongInv p.2 := by
  have hufs : ∀ sstr, uf.start_date = some sstr → (pyParseDate sstr).isSome := by
    intro sstr h
    rw [hufs0] at h
    exact absurd h (by simp)
  cases su with
  | none =>
    rw [startBranch_none] at hc
    exact recheck_preserves_inv db oid d uf res db2 d hinv hinvd hfd (Or.inl rfl)
      hufe hufs hc
  | some sstr =>
    by_cases hse : sstr = ""
    · subst hse
      rw [startBranch_sentinel] at hc
      refine recheck_preserves_inv (dbUpdateFirst db oid unsetStart) oid d uf res db2
        (unsetStart d) ?_ hinvd (dbFind_updateFirst_same db oid d unsetStart hfd)
        (Or.inr ⟨rfl, hufs0⟩) hufe hufs hc
      intro p hp
      rcases mem_dbUpdateFirst db oid d unsetStart hfd p hp with h | h
      · exact hinv p h
      · rw [h]
        exact strongInv_unset d hinvd
    · rcases Option.eq_none_or_eq_some (pyParseDate sstr) with hn | ⟨ts, hts⟩
      · rw [startBranch_badstart db oid d uf sstr hse hn] at hc
        obtain rfl : db2 = db := by
          have := congrArg Prod.snd hc
          simpa using this.symm
        exact hinv
      · rw [startBranch_goodstart db oid d uf sstr ts hse hts] at hc
        refine recheck_preserves_inv db oid d { uf with start_date := some sstr } res db2 d
          hinv hinvd hfd (Or.inl rfl) (fun estr h => hufe estr h) ?_ hc
        intro s2 h
        have h2 : sstr = s2 := Option.some.inj h
        subst h2
        rw [hts]
        rfl

theorem update_preserves_inv (T : List String) (db : AnnDB) (id : String)
    (mu eu su : Option String) (u : String) (res : Except ApiError ShapedAnnouncement)
    (db2 : AnnDB) (hinv : ∀ p ∈ db, StrongInv p.2)
    (hc : update_announcement T db id mu eu su u = (res, db2)) :
    ∀ p ∈ db2, StrongInv p.2 := by
  by_cases hT : u ∈ T
  · rcases Option.eq_none_or_eq_some (parseObjectId id) with hp | ⟨oid, hp⟩
    · rw [update_reduce_badid T db id u mu eu su hT hp] at hc
      obtain rfl : db2 = db := by
        have := congrArg Prod.snd hc
        simpa using this.symm
      exact hinv
    · rcases Option.eq_none_or_eq_some (dbFind db oid) with hfd | ⟨d, hfd⟩
      · rw [update_reduce_notfound T db id u oid mu eu su hT hp hfd] at hc
        obtain rfl : db2 = db := by
          have := congrArg Prod.snd hc
          simpa using this.symm
        exact hinv
      · rw [update_announcement_reduce T db id u oid d mu eu su hT hp hfd] at hc
        have hinvd : StrongInv d := hinv (oid, d) (dbFind_mem db oid d hfd)
        cases eu with
        | none =>
          rw [updateBody_exp_none] at hc
          exact startBranch_preserves_inv db oid d _ su res db2 hinv hinvd hfd
            (fun estr h => absurd h (by simp)) rfl hc
        | some estr =>
          rcases Option.eq_none_or_eq_some (pyParseDate estr) with hne | ⟨te, hte⟩
          · rw [updateBody_badexp db oid d mu estr su hne] at hc
            obtain rfl : db2 = db := by
              have := congrArg Prod.snd hc
              simpa using this.symm
            exact hinv
          · rw [updateBody_exp_some db oid d mu estr su te hte] at hc
            refine startBranch_preserves_inv db oid d _ su res db2 hinv hinvd hfd
              ?_ rfl hc
            intro estr2 h
            have h2 : estr = estr2 := Option.some.inj h
            subst h2
            rw [hte]
            rfl
  · have hred : update_announcement T db id mu eu su u = (.error .Unauthorized, db) := by
      unfold update_announcement
      rw [if_neg hT]
    rw [hred] at hc
    obtain rfl : db2 = db := by
      have := congrArg Prod.snd hc
      simpa using this.symm
    exact hinv

theorem create_preserves_inv (T : List String) (db : AnnDB) (m e : String)
    (s : Option String) (u now : String) (res : Except ApiError ShapedAnnouncement)
    (db2 : AnnDB) (hinv : ∀ p ∈ db, StrongInv p.2)
    (hc : create_announcement T db m e s u now = (res, db2)) :
    ∀ p ∈ db2, StrongInv p.2 := by
  by_cases hT : u ∈ T
  · rcases Option.eq_none_or_eq_some (pyParseDateTime e) with hpe | ⟨ex, hpe⟩
    · rw [create_reduce_badexp T db m e s u now hT hpe] at hc
      obtain rfl : db2 = db := by
        have := congrArg Prod.snd hc
        simpa using this.symm
      exact hinv
    · have hnostart : ∀ db2b resb,
          createInsert db m e none u now = (resb, db2b) → ∀ p ∈ db2b, StrongInv p.2 := by
        intro db2b resb hcb
        rw [createInsert_eq] at hcb
        obtain rfl : db2b = db ++ [(freshId db, ⟨m, some e, none, u, now, []⟩)] := by
          have := congrArg Prod.snd hcb
          simpa using this.symm
        intro p hp
        rcases List.mem_append.mp hp with h | h
        · exact hinv p h
        · have hpd : p = (freshId db, ⟨m, some e, none, u, now, []⟩) := by
            simpa using h
          rw [hpd]
          refine ⟨?_, ?_, ?_⟩
          · intro estr he
            have h2 : e = estr := Option.some.inj he
            subst h2
            exact parse_isSome_of_DT e ex hpe
          · intro sstr hss
            exact absurd hss (by simp)
          · intro sstr estr hss _
            exact absurd hss (by simp)
      cases s with
      | none =>
        rw [create_reduce_nostart T db m e u now ex hT hpe] at hc
        exact hnostart db2 res hc
      | some sstr =>
        by_cases hse : sstr = ""
        · subst hse
          rw [create_reduce_sentinel T db m e u now ex hT hpe] at hc
          exact hnostart db2 res hc
        · rcases Option.eq_none_or_eq_some (pyParseDateTime sstr) with hn | ⟨st, hts⟩
          · rw [create_reduce_badstart T db m e sstr u now ex hT hpe hse hn] at hc
            obtain rfl : db2 = db := by
              have := congrArg Prod.snd hc
              simpa using this.symm
            exact hinv
          · by_cases haw : st.aware = ex.aware
            · by_cases hord : ex.ts ≤ st.ts
              · rw [create_reduce_order T db m e sstr u now ex st hT hpe hse hts haw
                  hord] at hc
                obtain rfl : db2 = db := by
                  have := congrArg Prod.snd hc
                  simpa using this.symm
                exact hinv
              · rw [create_reduce_goodstart T db m e sstr u now ex st hT hpe hse hts haw
                  hord] at hc
                rw [createInsert_eq] at hc
                obtain rfl : db2 = db ++ [(freshId db,
                    ⟨m, some e, some sstr, u, now, []⟩)] := by
                  have := congrArg Prod.snd hc
                  simpa using this.symm
                intro p hp
                rcases List.mem_append.mp hp with h | h
                · exact hinv p h
                · have hpd : p = (freshId db, ⟨m, some e, some sstr, u, now, []⟩) := by
                    simpa using h
                  rw [hpd]
                  refine ⟨?_, ?_, ?_⟩
                  · intro estr he
                    have h2 : e = estr := Option.some.inj he
                    subst h2
                    exact parse_isSome_of_DT e ex hpe
                  · intro sstr2 hss
                    have h2 : sstr = sstr2 := Option.some.inj hss
                    subst h2
                    exact parse_isSome_of_DT sstr st hts
                  · intro sstr2 estr hss hee
                    have h2 : sstr = sstr2 := Option.some.inj hss
                    have h3 : e = estr := Option.some.inj hee
                    subst h2
                    subst h3
                    exact ⟨st.ts, ex.ts, pyParseDate_of_DT sstr st hts,
                      pyParseDate_of_DT e ex hpe, not_le.mp hord⟩
            · rw [create_reduce_internal T db m e sstr u now ex st hT hpe hse hts
                haw] at hc
              obtain rfl : db2 = db := by
                have := congrArg Prod.snd hc
                simpa using this.symm
              exact hinv
  · rw [create_reduce_unauth T db m e s u now hT] at hc
    obtain rfl : db2 = db := by
      have := congrArg Prod.snd hc
      simpa using this.symm
    exact hinv

theorem delete_preserves_inv (T : List String) (db : AnnDB) (id u : String)
    (res : Except ApiError String) (db2 : AnnDB)
    (hinv : ∀ p ∈ db, StrongInv p.2)
    (hc : delete_announcement T db id u = (res, db2)) :
    ∀ p ∈ db2, StrongInv p.2 := by
  by_cases hT : u ∈ T
  · rcases Option.eq_none_or_eq_some (parseObjectId id) with hp | ⟨oid, hp⟩
    · have hred : delete_announcement T db id u = (.error .InvalidIdentifier, db) := by
        unfold delete_announcement
        rw [if_pos hT, hp]
      rw [hred] at hc
      obtain rfl : db2 = db := by
        have := congrArg Prod.snd hc
        simpa using this.symm
      exact hinv
    · rw [delete_announcement_reduce T db id u oid hT hp] at hc
      have hsnd : db2 = (dbDeleteFirst db oid).1 := by
        by_cases hz : (dbDeleteFirst db oid).2 = 0
        · rw [if_pos hz] at hc
          have := congrArg Prod.snd hc
          simpa using this.symm
        · rw [if_neg hz] at hc
          have := congrArg Prod.snd hc
          simpa using this.symm
      subst hsnd
      intro p hp2
      exact hinv p (mem_dbDeleteFirst db oid p hp2)
  · have hred : delete_announcement T db id u = (.error .Unauthorized, db) := by
      unfold delete_announcement
      rw [if_neg hT]
    rw [hred] at hc
    obtain rfl : db2 = db := by
      have := congrArg Prod.snd hc
      simpa using this.symm
    exact hinv

/-- The collection states reachable through the endpoints from an empty
store: any sequence of `create`, `update` and `delete` calls, with any
arguments and any outcome (an `update` can mutate the store even when it
returns an error, through the sentinel's immediate unset). -/
inductive ReachableDB : AnnDB → Prop where
  | empty : ReachableDB []
  | step_create (T : List String) (db : AnnDB) (m e : String) (s : Option String)
      (u now : String) (out : ShapedAnnouncement) (db2 : AnnDB) :
      ReachableDB db → create_announcement T db m e s u now = (.ok out, db2) →
      ReachableDB db2
  | step_update (T : List String) (db : AnnDB) (id : String) (mu eu su : Option String)
      (u : String) (res : Except ApiError ShapedAnnouncement) (db2 : AnnDB) :
      ReachableDB db → update_announcement T db id mu eu su u = (res, db2) →
      ReachableDB db2
  | step_delete (T : List String) (db : AnnDB) (id u : String)
      (res : Except ApiError String) (db2 : AnnDB) :
      ReachableDB db → delete_announcement T db id u = (res, db2) → ReachableDB db2

theorem reachable_strongInv (db : AnnDB) (h : ReachableDB db) :
    ∀ p ∈ db, StrongInv p.2 := by
  induction h with
  | empty => intro p hp; simp at hp
  | step_create T db m e s u now out db2 hr hc ih =>
    exact create_preserves_inv T db m e s u now (.ok out) db2 ih hc
  | step_update T db id mu eu su u res db2 hr hc ih =>
    exact update_preserves_inv T db id mu eu su u res db2 ih hc
  | step_delete T db id u res db2 hr hc ih =>
    exact delete_preserves_inv T db id u res db2 ih hc

/-- C5: in every collection state reachable through the endpoints, every
stored announcement with both a `start_date` and an `expiration_date` has
parsed start strictly before parsed expiration. -/
theorem c5_date_order_invariant (db : AnnDB) (h : ReachableDB db) :
    ∀ p ∈ db, ∀ sstr estr, p.2.start_date = some sstr →
      p.2.expiration_date = some estr →
      ∃ ts te, pyParseDate sstr = some ts ∧ pyParseDate estr = some te ∧ ts < te :=
  fun p hp sstr estr hs he => (reachable_strongInv db h p hp).2.2 sstr estr hs he

/-- C5 witness: the state reached by one successful create with both dates
satisfies the invariant at its stored document. -/
theorem c5_witness :
    ∃ ts te, pyParseDate "2020-01-01T00:00:00" = some ts ∧
      pyParseDate "2030-01-01T00:00:00" = some te ∧ ts < te :=
  c5_date_order_invariant
    [(1, ⟨"m", some "2030-01-01T00:00:00", some "2020-01-01T00:00:00", "t1",
      "2026-01-01T00:00:00", []⟩)]
    (ReachableDB.step_create ["t1"] [] "m" "2030-01-01T00:00:00"
      (some "2020-01-01T00:00:00") "t1" "2026-01-01T00:00:00"
      (serialize_announcement 1 ⟨"m", some "2030-01-01T00:00:00",
        some "2020-01-01T00:00:00", "t1", "2026-01-01T00:00:00", []⟩)
      [(1, ⟨"m", some "2030-01-01T00:00:00", some "2020-01-01T00:00:00", "t1",
        "2026-01-01T00:00:00", []⟩)]
      ReachableDB.empty rfl)
    (1, ⟨"m", some "2030-01-01T00:00:00", some "2020-01-01T00:00:00", "t1",
      "2026-01-01T00:00:00", []⟩)
    (by simp)
    "2020-01-01T00:00:00" "2030-01-01T00:00:00" rfl rfl
